import Mathlib

/-!
Verification development for the agent-orchestration core of the `emo`
repository (Rust, Tauri backend under `src-tauri/src`).

The Rust code is shallowly embedded: pure data types become Lean inductive
types, the database becomes an explicit `Db` state threaded through the
functions that the Rust code runs against a Postgres pool, HTTP model
providers become oracle functions `LlmRequest → Except AppError LlmResponse`,
and the Tokio event bus becomes an accumulated list of `ExecutionEvent`s.
Background tasks (`tokio::spawn`) are modelled as running to completion
before the resulting state is observed, which is the order in which a single
orchestration task produces its effects.

Deliberate abstractions, noted where they matter:
* `f64` fields that are only carried, never inspected (`temperature`,
  token-usage counts) and timestamp columns are omitted from the embedded
  records; no embedded control flow depends on them.
* Database rows receive fresh ids from a `nextId` counter in `Db`, modelling
  `INSERT ... RETURNING` against a generated primary key.
* Individual `sqlx` query failures that the Rust code merely logs
  (`finalize_orchestration`, plan save) or propagates are modelled by the
  pool-availability flag `Db.available`, which is the branch the code takes
  explicitly via `DbPool::get`.
-/

namespace Emo

/-! ## JSON values (`serde_json::Value`) -/

/-- Embedding of `serde_json::Value`.  Numbers are embedded as integers;
none of the verified code paths inspects numeric JSON values. -/
inductive Json where
  | null
  | bool (b : Bool)
  | num (n : Int)
  | str (s : String)
  | arr (elems : List Json)
  | obj (fields : List (String × Json))
  deriving Repr

/-- `value["key"]` in serde_json: field lookup on objects, `Null` for a
missing key or a non-object receiver. -/
def Json.index : Json → String → Json
  | .obj fields, key => ((fields.find? (fun f => f.1 == key)).map Prod.snd).getD Json.null
  | _, _ => .null

/-- `Value::as_str`: `Some` only for JSON strings. -/
def Json.asStr : Json → Option String
  | .str s => some s
  | _ => none

mutual
/-- Minimal compact JSON rendering, mirroring `serde_json::Value::to_string`
for the values the orchestration code builds (no exotic string escapes are
produced by those values). -/
def Json.render : Json → String
  | .null => "null"
  | .bool true => "true"
  | .bool false => "false"
  | .num n => toString n
  | .str s => "\"" ++ s ++ "\""
  | .arr elems => "[" ++ Json.renderElems elems ++ "]"
  | .obj fields => "\x7b" ++ Json.renderFields fields ++ "\x7d"

/-- Comma-separated rendering of array elements. -/
def Json.renderElems : List Json → String
  | [] => ""
  | [x] => Json.render x
  | x :: y :: xs => Json.render x ++ "," ++ Json.renderElems (y :: xs)

/-- Comma-separated rendering of object fields. -/
def Json.renderFields : List (String × Json) → String
  | [] => ""
  | [(k, v)] => "\"" ++ k ++ "\":" ++ Json.render v
  | (k, v) :: f :: fs => "\"" ++ k ++ "\":" ++ Json.render v ++ "," ++ Json.renderFields (f :: fs)
end

mutual
/-- Structural decidable equality for `Json` (the nested occurrences keep
the derive handler from producing it). -/
def Json.decEq : (a b : Json) → Decidable (a = b)
  | .null, .null => isTrue rfl
  | .bool a, .bool b =>
      if h : a = b then isTrue (by rw [h]) else isFalse (by intro he; cases he; exact h rfl)
  | .num a, .num b =>
      if h : a = b then isTrue (by rw [h]) else isFalse (by intro he; cases he; exact h rfl)
  | .str a, .str b =>
      if h : a = b then isTrue (by rw [h]) else isFalse (by intro he; cases he; exact h rfl)
  | .arr a, .arr b =>
      match Json.decEqList a b with
      | isTrue h => isTrue (by rw [h])
      | isFalse h => isFalse (by intro he; cases he; exact h rfl)
  | .obj a, .obj b =>
      match Json.decEqFields a b with
      | isTrue h => isTrue (by rw [h])
      | isFalse h => isFalse (by intro he; cases he; exact h rfl)
  | .null, .bool _ => isFalse (by intro h; cases h)
  | .null, .num _ => isFalse (by intro h; cases h)
  | .null, .str _ => isFalse (by intro h; cases h)
  | .null, .arr _ => isFalse (by intro h; cases h)
  | .null, .obj _ => isFalse (by intro h; cases h)
  | .bool _, .null => isFalse (by intro h; cases h)
  | .bool _, .num _ => isFalse (by intro h; cases h)
  | .bool _, .str _ => isFalse (by intro h; cases h)
  | .bool _, .arr _ => isFalse (by intro h; cases h)
  | .bool _, .obj _ => isFalse (by intro h; cases h)
  | .num _, .null => isFalse (by intro h; cases h)
  | .num _, .bool _ => isFalse (by intro h; cases h)
  | .num _, .str _ => isFalse (by intro h; cases h)
  | .num _, .arr _ => isFalse (by intro h; cases h)
  | .num _, .obj _ => isFalse (by intro h; cases h)
  | .str _, .null => isFalse (by intro h; cases h)
  | .str _, .bool _ => isFalse (by intro h; cases h)
  | .str _, .num _ => isFalse (by intro h; cases h)
  | .str _, .arr _ => isFalse (by intro h; cases h)
  | .str _, .obj _ => isFalse (by intro h; cases h)
  | .arr _, .null => isFalse (by intro h; cases h)
  | .arr _, .bool _ => isFalse (by intro h; cases h)
  | .arr _, .num _ => isFalse (by intro h; cases h)
  | .arr _, .str _ => isFalse (by intro h; cases h)
  | .arr _, .obj _ => isFalse (by intro h; cases h)
  | .obj _, .null => isFalse (by intro h; cases h)
  | .obj _, .bool _ => isFalse (by intro h; cases h)
  | .obj _, .num _ => isFalse (by intro h; cases h)
  | .obj _, .str _ => isFalse (by intro h; cases h)
  | .obj _, .arr _ => isFalse (by intro h; cases h)

/-- Decidable equality on JSON array payloads. -/
def Json.decEqList : (a b : List Json) → Decidable (a = b)
  | [], [] => isTrue rfl
  | [], _ :: _ => isFalse (by intro h; cases h)
  | _ :: _, [] => isFalse (by intro h; cases h)
  | x :: xs, y :: ys =>
      match Json.decEq x y, Json.decEqList xs ys with
      | isTrue h1, isTrue h2 => isTrue (by rw [h1, h2])
      | isFalse h1, _ => isFalse (by intro he; cases he; exact h1 rfl)
      | _, isFalse h2 => isFalse (by intro he; cases he; exact h2 rfl)

/-- Decidable equality on JSON object payloads. -/
def Json.decEqFields : (a b : List (String × Json)) → Decidable (a = b)
  | [], [] => isTrue rfl
  | [], _ :: _ => isFalse (by intro h; cases h)
  | _ :: _, [] => isFalse (by intro h; cases h)
  | (k, v) :: xs, (k2, v2) :: ys =>
      if hk : k = k2 then
        match Json.decEq v v2, Json.decEqFields xs ys with
        | isTrue h1, isTrue h2 => isTrue (by rw [hk, h1, h2])
        | isFalse h1, _ => isFalse (by intro he; cases he; exact h1 rfl)
        | _, isFalse h2 => isFalse (by intro he; cases he; exact h2 rfl)
      else isFalse (by intro he; cases he; exact hk rfl)
end

instance : DecidableEq Json := Json.decEq

/-! ## Identifiers

`uuid::Uuid` values are embedded as wrapped naturals; the code only ever
compares them for equality, renders them, or receives them from
`Uuid::parse_str`, which is modelled as an oracle `String → Option Uuid`. -/

structure Uuid where
  val : Nat
  deriving Repr, DecidableEq

/-- `Uuid::to_string` (the concrete digit format is irrelevant to every
claim; only injectivity on the ids in play matters). -/
def Uuid.render (u : Uuid) : String := toString u.val

/-! ## Constants (`constants.rs`) -/

def STATUS_RUNNING : String := "running"
def STATUS_COMPLETED : String := "completed"
def STATUS_FAILED : String := "failed"
def STATUS_REJECTED : String := "rejected"
def STATUS_AWAITING_APPROVAL : String := "awaiting_approval"

def MODE_AUTOMATIC : String := "automatic"
def MODE_APPROVAL : String := "approval"

def ROLE_USER : String := "user"
def ROLE_ASSISTANT : String := "assistant"

def STOP_END_TURN : String := "end_turn"
def STOP_STOP : String := "stop"
def STOP_TOOL_USE : String := "tool_use"

def TOOL_CREATE_SUB_AGENT : String := "create_sub_agent"
def TOOL_EXECUTE_SUB_AGENT : String := "execute_sub_agent"
def TOOL_GET_SUB_AGENT_RESULT : String := "get_sub_agent_result"

/-! ## LLM message model (`llm/types.rs`) -/

/-- `ContentBlock` from `llm/types.rs`. -/
inductive ContentBlock where
  | text (text : String)
  | toolUse (id name : String) (input : Json)
  | toolResult (toolUseId content : String) (isError : Bool)
  deriving Repr, DecidableEq

/-- `MessageContent` from `llm/types.rs` (untagged union of a plain string
and a block list). -/
inductive MessageContent where
  | text (s : String)
  | blocks (bs : List ContentBlock)
  deriving Repr, DecidableEq

structure LlmMessage where
  role : String
  content : MessageContent
  deriving Repr, DecidableEq

structure ToolDefinition where
  name : String
  description : String
  inputSchema : Json
  deriving Repr, DecidableEq

/-- `LlmRequest` (the `temperature : f64` field is carried by the Rust code
but never inspected; it is omitted here). -/
structure LlmRequest where
  model : String
  messages : List LlmMessage
  system : Option String
  maxTokens : Int
  tools : Option (List ToolDefinition)
  deriving Repr, DecidableEq

/-- `LlmResponse` (the `model` echo and `token_usage` counters are carried
but never branched on by the orchestration code; they are omitted here). -/
structure LlmResponse where
  content : String
  contentBlocks : List ContentBlock
  stopReason : Option String
  deriving Repr, DecidableEq

/-! ## Errors (`error.rs`) -/

inductive AppError where
  | databaseUnavailable
  | database (msg : String)
  | notFound
  | invalidInput (msg : String)
  | internal (msg : String)
  | llmError (msg : String)
  deriving Repr, DecidableEq

/-- The `thiserror` `Display` strings from `error.rs` (`e.to_string()`). -/
def AppError.toMessage : AppError → String
  | .databaseUnavailable => "Database is not available"
  | .database msg => "Database error: " ++ msg
  | .notFound => "Not found"
  | .invalidInput msg => "Invalid input: " ++ msg
  | .internal msg => "Internal error: " ++ msg
  | .llmError msg => "LLM error: " ++ msg

/-- Discriminator used by claims about `invalid_input` responses. -/
def AppError.isInvalidInput : AppError → Bool
  | .invalidInput _ => true
  | _ => false

/-! ## Events (`event_bus.rs`)

`EventBus::publish` never fails and drops events without subscribers; what
each claim is about is *which* events a code path hands to `publish`, in
order, so the bus is embedded as an accumulated event list. -/

inductive ExecutionEvent where
  | workflowRunStarted (workflowRunId workflowId : Uuid)
  | workflowRunCompleted (workflowRunId workflowId : Uuid) (status : String)
  | agentExecutionStarted (executionId agentId : Uuid)
  | agentExecutionCompleted (executionId agentId : Uuid) (output : String) (durationMs : Int)
  | agentExecutionFailed (executionId agentId : Uuid) (error : String)
  | subAgentCreated (agentId orchestratorAgentId : Uuid) (name description : String) (workflowId : Uuid)
  | orchestratorPlanProposed (orchestrationRunId orchestratorAgentId : Uuid) (plan : Json)
  | orchestratorPlanApproved (orchestrationRunId orchestratorAgentId : Uuid)
  | orchestratorPlanRejected (orchestrationRunId orchestratorAgentId : Uuid)
  | orchestratorCompleted (orchestrationRunId orchestratorAgentId : Uuid) (output : String)
  | orchestratorFailed (orchestrationRunId orchestratorAgentId : Uuid) (error : String)
  deriving Repr, DecidableEq

/-! ## Database rows (`models.rs`; timestamp columns omitted) -/

structure Agent where
  id : Uuid
  workflowId : Uuid
  llmProviderId : Uuid
  name : String
  description : Option String
  systemPrompt : Option String
  model : String
  maxTokens : Int
  isActive : Bool
  deriving Repr, DecidableEq

structure LlmProviderRow where
  id : Uuid
  name : String
  isEnabled : Bool
  deriving Repr, DecidableEq

structure WorkflowRun where
  id : Uuid
  workflowId : Uuid
  status : String
  errorMessage : Option String
  deriving Repr, DecidableEq

structure AgentExecution where
  id : Uuid
  agentId : Uuid
  workflowRunId : Option Uuid
  status : String
  inputText : Option String
  outputText : Option String
  tokenUsage : Option Json
  durationMs : Option Int
  errorMessage : Option String
  deriving Repr, DecidableEq

structure OrchestrationRun where
  id : Uuid
  orchestratorAgentId : Uuid
  workflowRunId : Uuid
  executionId : Uuid
  mode : String
  status : String
  planJson : Option Json
  messagesJson : Option Json
  finalOutput : Option String
  deriving Repr, DecidableEq

structure AgentMessage where
  executionId : Uuid
  role : String
  content : String
  sequenceOrder : Int
  deriving Repr, DecidableEq

/-- The relational store.  `available` models `DbPool::get` succeeding;
`nextId` models the generated primary keys handed out by `INSERT`. -/
structure Db where
  available : Bool
  nextId : Nat
  agents : List Agent
  llmProviders : List LlmProviderRow
  workflowRuns : List WorkflowRun
  agentExecutions : List AgentExecution
  orchestrationRuns : List OrchestrationRun
  agentMessages : List AgentMessage
  deriving Repr, DecidableEq

/-- Allocate a generated primary key (`INSERT ... RETURNING id`). -/
def Db.freshId (db : Db) : Uuid × Db :=
  (⟨db.nextId⟩, { db with nextId := db.nextId + 1 })

/-- `UPDATE t SET ... WHERE p`: rewrite every matching row in place. -/
def updateWhere (p : α → Bool) (f : α → α) (rows : List α) : List α :=
  rows.map (fun r => if p r then f r else r)

/-- `SELECT ... WHERE id = x` on a keyed table. -/
def findRow (p : α → Bool) (rows : List α) : Option α :=
  rows.find? p

/-- `matches!(b, ContentBlock::ToolUse { .. })` -/
def ContentBlock.isToolUse : ContentBlock → Bool
  | .toolUse _ _ _ => true
  | _ => false

/-- Well-formedness of generated keys: every stored row's id precedes the
`nextId` counter, so freshly inserted rows never collide with existing ones
(true of every database the code itself builds). -/
def Db.freshOk (db : Db) : Prop :=
  (∀ r ∈ db.orchestrationRuns, r.id.val < db.nextId) ∧
  (∀ e ∈ db.agentExecutions, e.id.val < db.nextId) ∧
  (∀ w ∈ db.workflowRuns, w.id.val < db.nextId)

/-! ## Provider response normalization

The pure tail of `AnthropicProvider::complete` (`llm/anthropic.rs`,
after the HTTP transport and JSON parse have succeeded) and of
`GeminiProvider::complete` (`llm/gemini.rs`, steps 8–10). -/

/-- `AnthropicResponseContent` from `llm/anthropic.rs`. -/
inductive AnthropicResponseContent where
  | text (text : String)
  | toolUse (id name : String) (input : Json)
  deriving Repr, DecidableEq

/-- The parsed `AnthropicResponse` fields the normalization reads
(`model` and `usage` are copied through unchanged and omitted here). -/
structure AnthropicResponse where
  content : List AnthropicResponseContent
  stopReason : Option String
  deriving Repr, DecidableEq

/-- `AnthropicProvider::complete`, lines 219–255: convert response content
to `ContentBlock`s, join the text parts, and pass `stop_reason` through. -/
def anthropicNormalize (api : AnthropicResponse) : LlmResponse :=
  let contentBlocks : List ContentBlock := api.content.map fun c =>
    match c with
    | .text t => ContentBlock.text t
    | .toolUse id name input => ContentBlock.toolUse id name input
  let content : String := String.join (api.content.filterMap fun c =>
    match c with
    | .text t => some t
    | _ => none)
  { content := content, contentBlocks := contentBlocks, stopReason := api.stopReason }

/-- `GeminiFunctionCall` from `llm/gemini.rs`. -/
structure GeminiFunctionCall where
  name : String
  args : Json
  deriving Repr, DecidableEq

/-- `GeminiPart` from `llm/gemini.rs`. -/
inductive GeminiPart where
  | functionCall (fc : GeminiFunctionCall)
  | functionResponse (name : String) (response : Json)
  | text (text : String)
  deriving Repr, DecidableEq

/-- `map_finish_reason` from `llm/gemini.rs`. -/
def geminiMapFinishReason (reason : String) : String :=
  if reason == "STOP" then "end_turn"
  else if reason == "MAX_TOKENS" then "max_tokens"
  else reason.toLower

/-- `format!("toolu_{:08x}", counter)`: zero-padded 8-digit lowercase hex. -/
def hex8 (n : Nat) : String :=
  let s := String.mk (Nat.toDigits 16 n)
  String.pushn "" '0' (8 - s.length) ++ s

/-- The part-conversion loop of `GeminiProvider::complete` (step 8):
function calls receive synthesized ids `toolu_%08x` numbered from 1,
`functionResponse` parts are dropped. -/
def geminiBlocks : List GeminiPart → Nat → List ContentBlock
  | [], _ => []
  | .text t :: rest, counter => ContentBlock.text t :: geminiBlocks rest counter
  | .functionCall fc :: rest, counter =>
      ContentBlock.toolUse ("toolu_" ++ hex8 (counter + 1)) fc.name fc.args ::
        geminiBlocks rest (counter + 1)
  | .functionResponse _ _ :: rest, counter => geminiBlocks rest counter

/-- `GeminiProvider::complete`, steps 8–10: build content blocks, join text
parts, map the finish reason, then force `tool_use` whenever a `tool_use`
block is present. -/
def geminiNormalize (parts : List GeminiPart) (finishReason : Option String) : LlmResponse :=
  let contentBlocks := geminiBlocks parts 0
  let content : String := String.join (parts.filterMap fun p =>
    match p with
    | .text t => some t
    | _ => none)
  let stopReason := finishReason.map geminiMapFinishReason
  let stopReason :=
    if contentBlocks.any ContentBlock.isToolUse then some "tool_use" else stopReason
  { content := content, contentBlocks := contentBlocks, stopReason := stopReason }

/-! ## External-effect oracle -/

/-- Effects that reach outside the embedded state: the provider registry
(`LlmRegistry::get` composed with the HTTP `complete`, modelled as a pure
oracle), `Uuid::parse_str`, and the wall-clock reading behind `duration_ms`. -/
structure Env where
  registry : String → Option (LlmRequest → Except AppError LlmResponse)
  parseUuid : String → Option Uuid
  durationMs : Int

/-! ## Agent execution service (`services/execution_service.rs`) -/

def MAX_INPUT_LENGTH : Nat := 100000

structure ExecuteAgentRequest where
  agentId : Uuid
  input : String
  deriving Repr, DecidableEq

/-- `execution_service::execute_agent`.  Returns the Rust function's result
together with the database state and the events handed to the bus, in order.
`token_usage` is persisted as an opaque value (`Json.null`) since the token
counters are not modelled. -/
def executeAgent (env : Env) (db : Db) (req : ExecuteAgentRequest) :
    Except AppError AgentExecution × Db × List ExecutionEvent :=
  if req.input.utf8ByteSize > MAX_INPUT_LENGTH then
    (.error (.invalidInput ("Input text too long (" ++ toString req.input.utf8ByteSize ++
      " bytes). Maximum is " ++ toString MAX_INPUT_LENGTH ++ " bytes.")), db, [])
  else if !db.available then (.error .databaseUnavailable, db, [])
  else
    match findRow (fun a => a.id == req.agentId && a.isActive) db.agents with
    | none => (.error .notFound, db, [])
    | some agent =>
      match findRow (fun p => p.id == agent.llmProviderId && p.isEnabled) db.llmProviders with
      | none => (.error .notFound, db, [])
      | some providerRow =>
        let (wrId, db) := db.freshId
        let workflowRun : WorkflowRun :=
          { id := wrId, workflowId := agent.workflowId,
            status := STATUS_RUNNING,
            errorMessage := none }
        let db := { db with workflowRuns := db.workflowRuns ++ [workflowRun] }
        let events := [ExecutionEvent.workflowRunStarted wrId agent.workflowId]
        let (exId, db) := db.freshId
        let execution : AgentExecution :=
          { id := exId, agentId := agent.id,
            workflowRunId := some wrId,
            status := STATUS_RUNNING, inputText := some req.input, outputText := none,
            tokenUsage := none, durationMs := none, errorMessage := none }
        let db := { db with agentExecutions := db.agentExecutions ++ [execution] }
        let events := events ++ [ExecutionEvent.agentExecutionStarted exId agent.id]
        let llmRequest : LlmRequest :=
          { model := agent.model,
            messages := [⟨ROLE_USER, .text req.input⟩],
            system := agent.systemPrompt, maxTokens := agent.maxTokens, tools := none }
        match env.registry providerRow.name with
        | none =>
            (.error (.llmError ("Provider '" ++ providerRow.name ++ "' not registered")),
              db, events)
        | some complete =>
          match complete llmRequest with
          | .ok resp =>
            let savedMessages : List AgentMessage :=
              match agent.systemPrompt with
              | some sys =>
                  [⟨exId, "system", sys, 0⟩, ⟨exId, "user", req.input, 1⟩,
                    ⟨exId, "assistant", resp.content, 2⟩]
              | none =>
                  [⟨exId, "user", req.input, 0⟩, ⟨exId, "assistant", resp.content, 1⟩]
            let db := { db with agentMessages := db.agentMessages ++ savedMessages }
            let touch := fun (e : AgentExecution) =>
              { e with
                status := STATUS_COMPLETED, outputText := some resp.content,
                tokenUsage := some Json.null, durationMs := some env.durationMs }
            let db := { db with
              agentExecutions := updateWhere (fun e => e.id == exId) touch db.agentExecutions }
            let db := { db with
              workflowRuns := updateWhere (fun w => w.id == wrId)
                (fun w => { w with status := STATUS_COMPLETED }) db.workflowRuns }
            let events := events ++
              [ExecutionEvent.agentExecutionCompleted exId agent.id resp.content env.durationMs,
                ExecutionEvent.workflowRunCompleted wrId agent.workflowId STATUS_COMPLETED]
            (.ok (touch execution), db, events)
          | .error err =>
            let errorMsg := err.toMessage
            let touch := fun (e : AgentExecution) =>
              { e with
                status := STATUS_FAILED, errorMessage := some errorMsg,
                durationMs := some env.durationMs }
            let db := { db with
              agentExecutions := updateWhere (fun e => e.id == exId) touch db.agentExecutions }
            let db := { db with
              workflowRuns := updateWhere (fun w => w.id == wrId)
                (fun w => { w with status := STATUS_FAILED, errorMessage := some errorMsg })
                db.workflowRuns }
            let events := events ++
              [ExecutionEvent.agentExecutionFailed exId agent.id errorMsg,
                ExecutionEvent.workflowRunCompleted wrId agent.workflowId STATUS_FAILED]
            (.ok (touch execution), db, events)

/-- `execution_service::get_execution`. -/
def getExecution (db : Db) (id : Uuid) : Except AppError AgentExecution :=
  if !db.available then .error .databaseUnavailable
  else
    match findRow (fun e => e.id == id) db.agentExecutions with
    | none => .error .notFound
    | some e => .ok e

/-! ## Orchestrator tools (`services/orchestration/tools.rs`) -/

/-- The per-run state shared by the tool loop
(`services/orchestration/context.rs`; the registries and bus live in `Env`,
the pool in `Db`, and `temperature : f64` is carried but never inspected). -/
structure OrchestrationContext where
  orchestrationRunId : Uuid
  executionId : Uuid
  orchestratorAgentId : Uuid
  workflowId : Uuid
  llmProviderId : Uuid
  providerName : String
  model : String
  systemPrompt : Option String
  maxTokens : Int

/-- `None` fields of serde's `Option` render as JSON null. -/
def jsonOfOptStr : Option String → Json
  | some s => .str s
  | none => .null

/-- `None` fields of serde's `Option<i64>` render as JSON null. -/
def jsonOfOptInt : Option Int → Json
  | some n => .num n
  | none => .null

/-- `handle_tool_call` from `services/orchestration/tools.rs`.  The one
sqlx-level failure the model keeps is pool unavailability (`ctx.db.get()`);
a row insert against an available pool is modelled as succeeding. -/
def handleToolCall (env : Env) (ctx : OrchestrationContext) (db : Db)
    (toolName : String) (toolInput : Json) :
    (String × Bool) × Db × List ExecutionEvent :=
  if toolName == TOOL_CREATE_SUB_AGENT then
    let name := (toolInput.index "name").asStr.getD "Sub Agent"
    let description := (toolInput.index "description").asStr.getD ""
    let systemPrompt := (toolInput.index "system_prompt").asStr
    if !db.available then
      (("Database error: " ++ AppError.databaseUnavailable.toMessage, true), db, [])
    else
      let (agId, db2) := db.freshId
      let agent : Agent :=
        { id := agId, workflowId := ctx.workflowId,
          llmProviderId := ctx.llmProviderId,
          name := name, description := some description, systemPrompt := systemPrompt,
          model := ctx.model, maxTokens := 2048, isActive := true }
      let db2 := { db2 with agents := db2.agents ++ [agent] }
      ((Json.render (.obj [("agent_id", .str agId.render), ("name", .str name),
          ("status", .str "created")]), false),
        db2,
        [ExecutionEvent.subAgentCreated agId ctx.orchestratorAgentId name description
          ctx.workflowId])
  else if toolName == TOOL_EXECUTE_SUB_AGENT then
    let agentIdStr := (toolInput.index "agent_id").asStr.getD ""
    let inp := (toolInput.index "input").asStr.getD ""
    match env.parseUuid agentIdStr with
    | none => (("Invalid agent_id: " ++ agentIdStr, true), db, [])
    | some agentId =>
      match executeAgent env db { agentId := agentId, input := inp } with
      | (.ok execution, db2, events) =>
          ((Json.render (.obj [("execution_id", .str execution.id.render),
              ("status", .str execution.status),
              ("output", .str (execution.outputText.getD ""))]), false), db2, events)
      | (.error e, db2, events) =>
          (("Execution failed: " ++ e.toMessage, true), db2, events)
  else if toolName == TOOL_GET_SUB_AGENT_RESULT then
    let executionIdStr := (toolInput.index "execution_id").asStr.getD ""
    match env.parseUuid executionIdStr with
    | none => (("Invalid execution_id: " ++ executionIdStr, true), db, [])
    | some executionId =>
      match getExecution db executionId with
      | .ok execution =>
          ((Json.render (.obj [("execution_id", .str execution.id.render),
              ("agent_id", .str execution.agentId.render),
              ("status", .str execution.status),
              ("output", .str (execution.outputText.getD "")),
              ("error", jsonOfOptStr execution.errorMessage),
              ("duration_ms", jsonOfOptInt execution.durationMs)]), false), db, [])
      | .error e => (("Failed to get result: " ++ e.toMessage, true), db, [])
  else (("Unknown tool: " ++ toolName, true), db, [])

/-- `process_tool_calls` from `services/orchestration/tools.rs`: execute the
`tool_use` blocks sequentially in order, pairing each with a `tool_result`
carrying the same id; non-`tool_use` blocks are skipped by the `if let`. -/
def processToolCalls (env : Env) (ctx : OrchestrationContext) :
    List ContentBlock → Db → List ContentBlock × Db × List ExecutionEvent
  | [], db => ([], db, [])
  | b :: rest, db =>
    match b with
    | .toolUse id name input =>
        let ((content, isError), db2, evs) := handleToolCall env ctx db name input
        let (results, db3, evs2) := processToolCalls env ctx rest db2
        (ContentBlock.toolResult id content isError :: results, db3, evs ++ evs2)
    | _ => processToolCalls env ctx rest db

/-- `orchestrator_tools` from `services/orchestration/tools.rs`: the three
intrinsic tool declarations handed to the model on every loop request. -/
def orchestratorTools : List ToolDefinition :=
  [ { name := TOOL_CREATE_SUB_AGENT,
      description := "Create a new sub-agent to handle a specific subtask. The sub-agent will be created with its own panel on the dashboard.",
      inputSchema := .obj
        [("type", .str "object"),
         ("properties", .obj
           [("name", .obj [("type", .str "string"),
              ("description", .str "A short descriptive name for the sub-agent (e.g. 'Researcher', 'Code Generator')")]),
            ("description", .obj [("type", .str "string"),
              ("description", .str "Description of what this sub-agent should do")]),
            ("system_prompt", .obj [("type", .str "string"),
              ("description", .str "System prompt for the sub-agent that defines its role and behavior")])]),
         ("required", .arr [.str "name", .str "description", .str "system_prompt"])] },
    { name := TOOL_EXECUTE_SUB_AGENT,
      description := "Execute a sub-agent with a specific input prompt. The agent must have been created first with create_sub_agent.",
      inputSchema := .obj
        [("type", .str "object"),
         ("properties", .obj
           [("agent_id", .obj [("type", .str "string"),
              ("description", .str "The UUID of the sub-agent to execute")]),
            ("input", .obj [("type", .str "string"),
              ("description", .str "The input prompt to send to the sub-agent")])]),
         ("required", .arr [.str "agent_id", .str "input"])] },
    { name := TOOL_GET_SUB_AGENT_RESULT,
      description := "Get the execution result of a sub-agent. Use this after executing a sub-agent to retrieve its output.",
      inputSchema := .obj
        [("type", .str "object"),
         ("properties", .obj
           [("execution_id", .obj [("type", .str "string"),
              ("description", .str "The UUID of the agent execution to get results from")])]),
         ("required", .arr [.str "execution_id"])] } ]

/-! ## Finalization (`services/orchestration/finalize.rs`) -/

/-- `finalize_orchestration`: update the orchestration run, then the agent
execution, then the workflow run (the latter only while still `running`).
With an unavailable pool the function logs and leaves the state untouched;
individual query errors are logged, not raised, and not modelled. -/
def finalizeOrchestration (db : Db) (orchestrationRunId executionId : Uuid)
    (status : String) (finalOutput errorMessage : Option String) : Db :=
  if !db.available then db
  else
    let db1 := { db with
      orchestrationRuns := updateWhere (fun r => r.id == orchestrationRunId)
        (fun r => { r with status := status, finalOutput := finalOutput })
        db.orchestrationRuns }
    let execStatus : Option String :=
      if status == STATUS_COMPLETED then some STATUS_COMPLETED
      else if status == STATUS_FAILED || status == STATUS_REJECTED then some STATUS_FAILED
      else none
    match execStatus with
    | none => db1
    | some es =>
      let db2 := { db1 with
        agentExecutions := updateWhere (fun e => e.id == executionId)
          (fun e => { e with
            status := es, outputText := finalOutput,
            errorMessage := errorMessage })
          db1.agentExecutions }
      let wfStatus := if status == STATUS_COMPLETED then STATUS_COMPLETED else STATUS_FAILED
      let wfId := (findRow (fun r => r.id == orchestrationRunId) db2.orchestrationRuns).map
        (fun r => r.workflowRunId)
      { db2 with
        workflowRuns := updateWhere
          (fun w => some w.id == wfId && w.status == STATUS_RUNNING)
          (fun w => { w with status := wfStatus, errorMessage := errorMessage })
          db2.workflowRuns }

/-! ## Conversation serialization

`serde_json::to_value(&Vec<LlmMessage>)` with the derive attributes of
`llm/types.rs`: `ContentBlock` is internally tagged with `type` and renamed
variants, `MessageContent` is untagged. -/

def ContentBlock.toJson : ContentBlock → Json
  | .text t => .obj [("type", .str "text"), ("text", .str t)]
  | .toolUse id name input =>
      .obj [("type", .str "tool_use"), ("id", .str id), ("name", .str name),
        ("input", input)]
  | .toolResult toolUseId content isError =>
      .obj [("type", .str "tool_result"), ("tool_use_id", .str toolUseId),
        ("content", .str content), ("is_error", .bool isError)]

def MessageContent.toJson : MessageContent → Json
  | .text s => .str s
  | .blocks bs => .arr (bs.map ContentBlock.toJson)

def LlmMessage.toJson (m : LlmMessage) : Json :=
  .obj [("role", .str m.role), ("content", m.content.toJson)]

def messagesToJson (messages : List LlmMessage) : Json :=
  .arr (messages.map LlmMessage.toJson)

/-! ## The tool loop (`services/orchestration/tool_loop.rs`) -/

def MAX_TOOL_LOOP_ITERATIONS : Nat := 20

/-- The error text of the iteration-cap branch
(`format!` with `MAX_TOOL_LOOP_ITERATIONS` interpolated). -/
def maxIterationsError : String :=
  "Tool loop exceeded maximum iterations (" ++ toString MAX_TOOL_LOOP_ITERATIONS ++
    "). Stopping to prevent runaway execution."

/-- What the Rust loop returns only through its side effects, plus the two
instrumented observables the claims quantify over: how many times the
provider was called and the final conversation. -/
structure LoopResult where
  db : Db
  events : List ExecutionEvent
  modelCalls : Nat
  conversation : List LlmMessage

/-- The request built at the top of every loop iteration. -/
def mkLoopRequest (ctx : OrchestrationContext) (messages : List LlmMessage) : LlmRequest :=
  { model := ctx.model, messages := messages, system := ctx.systemPrompt,
    maxTokens := ctx.maxTokens, tools := some orchestratorTools }

/-- The body of `run_tool_loop` after the provider lookup.  The Rust loop
counts `iteration` upward and exits when `iteration > MAX_TOOL_LOOP_ITERATIONS`;
here `fuel = MAX_TOOL_LOOP_ITERATIONS + 1 - iteration` counts the remaining
permitted iterations, so `fuel = 0` is exactly the guard firing on the 21st
iteration. -/
def runToolLoopAux (env : Env) (ctx : OrchestrationContext)
    (complete : LlmRequest → Except AppError LlmResponse) :
    Nat → List LlmMessage → Db → List ExecutionEvent → Nat → LoopResult
  | 0, messages, db, events, calls =>
      let error := maxIterationsError
      let db := finalizeOrchestration db ctx.orchestrationRunId ctx.executionId
        STATUS_FAILED none (some error)
      ⟨db, events ++ [.orchestratorFailed ctx.orchestrationRunId ctx.orchestratorAgentId error],
        calls, messages⟩
  | fuel + 1, messages, db, events, calls =>
      match complete (mkLoopRequest ctx messages) with
      | .error e =>
          let error := e.toMessage
          let db := finalizeOrchestration db ctx.orchestrationRunId ctx.executionId
            STATUS_FAILED none (some error)
          ⟨db, events ++
            [.orchestratorFailed ctx.orchestrationRunId ctx.orchestratorAgentId error],
            calls + 1, messages⟩
      | .ok resp =>
          let stopReason := resp.stopReason.getD STOP_END_TURN
          if stopReason == STOP_END_TURN || stopReason == STOP_STOP then
            let output := resp.content
            let db := finalizeOrchestration db ctx.orchestrationRunId ctx.executionId
              STATUS_COMPLETED (some output) none
            ⟨db, events ++
              [.orchestratorCompleted ctx.orchestrationRunId ctx.orchestratorAgentId output],
              calls + 1, messages⟩
          else if stopReason == STOP_TOOL_USE then
            let messages := messages ++ [⟨ROLE_ASSISTANT, .blocks resp.contentBlocks⟩]
            let toolUses := resp.contentBlocks.filter ContentBlock.isToolUse
            let (toolResults, db2, evs) := processToolCalls env ctx toolUses db
            let messages := messages ++ [⟨ROLE_USER, .blocks toolResults⟩]
            runToolLoopAux env ctx complete fuel messages db2 (events ++ evs) (calls + 1)
          else
            let output := resp.content
            let db := finalizeOrchestration db ctx.orchestrationRunId ctx.executionId
              STATUS_COMPLETED (some output) none
            ⟨db, events ++
              [.orchestratorCompleted ctx.orchestrationRunId ctx.orchestratorAgentId output],
              calls + 1, messages⟩

/-- `run_tool_loop` (automatic mode). -/
def runToolLoop (env : Env) (ctx : OrchestrationContext)
    (messages : List LlmMessage) (db : Db) : LoopResult :=
  match env.registry ctx.providerName with
  | none =>
      let error := "Provider '" ++ ctx.providerName ++ "' not registered"
      let db := finalizeOrchestration db ctx.orchestrationRunId ctx.executionId
        STATUS_FAILED none (some error)
      ⟨db, [.orchestratorFailed ctx.orchestrationRunId ctx.orchestratorAgentId error],
        0, messages⟩
  | some complete =>
      runToolLoopAux env ctx complete MAX_TOOL_LOOP_ITERATIONS messages db [] 0

/-- The plan payload built in `run_tool_loop_approval` from the response's
`tool_use` blocks. -/
def planOfResponse (resp : LlmResponse) : Json :=
  .obj [("steps", .arr (resp.contentBlocks.filterMap fun b =>
      match b with
      | .toolUse id name input =>
          some (.obj [("tool_use_id", .str id), ("name", .str name), ("input", input)])
      | _ => none)),
    ("text", .str resp.content)]

/-- `run_tool_loop_approval`: one model call; terminal stop reasons
`end_turn`/`stop` (or a missing one) complete the run, `tool_use` saves the
plan and conversation and suspends, and any other stop reason falls off the
end of the function without finalizing anything. -/
def runToolLoopApproval (env : Env) (ctx : OrchestrationContext)
    (messages : List LlmMessage) (db : Db) : LoopResult :=
  match env.registry ctx.providerName with
  | none =>
      let error := "Provider '" ++ ctx.providerName ++ "' not registered"
      let db := finalizeOrchestration db ctx.orchestrationRunId ctx.executionId
        STATUS_FAILED none (some error)
      ⟨db, [.orchestratorFailed ctx.orchestrationRunId ctx.orchestratorAgentId error],
        0, messages⟩
  | some complete =>
    match complete (mkLoopRequest ctx messages) with
    | .error e =>
        let error := e.toMessage
        let db := finalizeOrchestration db ctx.orchestrationRunId ctx.executionId
          STATUS_FAILED none (some error)
        ⟨db, [.orchestratorFailed ctx.orchestrationRunId ctx.orchestratorAgentId error],
          1, messages⟩
    | .ok resp =>
        let stopReason := resp.stopReason.getD STOP_END_TURN
        if stopReason == STOP_END_TURN || stopReason == STOP_STOP then
          let output := resp.content
          let db := finalizeOrchestration db ctx.orchestrationRunId ctx.executionId
            STATUS_COMPLETED (some output) none
          ⟨db, [.orchestratorCompleted ctx.orchestrationRunId ctx.orchestratorAgentId output],
            1, messages⟩
        else if stopReason == STOP_TOOL_USE then
          let messages := messages ++ [⟨ROLE_ASSISTANT, .blocks resp.contentBlocks⟩]
          let plan := planOfResponse resp
          let messagesJson := messagesToJson messages
          if !db.available then ⟨db, [], 1, messages⟩
          else
            let db := { db with
              orchestrationRuns := updateWhere (fun r => r.id == ctx.orchestrationRunId)
                (fun r => { r with
                  status := STATUS_AWAITING_APPROVAL,
                  planJson := some plan, messagesJson := some messagesJson })
                db.orchestrationRuns }
            ⟨db, [.orchestratorPlanProposed ctx.orchestrationRunId ctx.orchestratorAgentId plan],
              1, messages⟩
        else ⟨db, [], 1, messages⟩

/-- A provider oracle that answers every request with a `tool_use`-stopped
response (the runaway scenario of claim C1). -/
def alwaysToolUse (complete : LlmRequest → Except AppError LlmResponse) : Prop :=
  ∀ req, ∃ resp, complete req = .ok resp ∧ resp.stopReason = some STOP_TOOL_USE

/-! ## Coordinator (`services/orchestration/api.rs`) -/

structure OrchestrateRequest where
  agentId : Uuid
  input : String
  mode : String

/-- `build_orchestrator_system`. -/
def buildOrchestratorSystem (agentSystemPrompt : Option String) : String :=
  agentSystemPrompt.getD "" ++
    "\n\nYou are an orchestrator agent. When given a complex task, break it down into subtasks and use the provided tools to create sub-agents, execute them, and collect their results. Then synthesize a final answer.\n\nAvailable tools:\n- create_sub_agent: Create a new sub-agent for a specific subtask\n- execute_sub_agent: Execute a created sub-agent with an input prompt\n- get_sub_agent_result: Get the result of a completed execution"

/-- `validate_mode`. -/
def validateMode (mode : String) : Except AppError Unit :=
  if mode == MODE_AUTOMATIC || mode == MODE_APPROVAL then .ok ()
  else .error (.invalidInput ("Invalid orchestration mode '" ++ mode ++
    "'. Must be '" ++ MODE_AUTOMATIC ++ "' or '" ++ MODE_APPROVAL ++ "'."))

/-- The 100 KB input gate of `orchestrate_agent`
(`request.input.len()` is the UTF-8 byte length of a Rust `String`). -/
def inputTooLong (s : String) : Bool :=
  s.utf8ByteSize > MAX_INPUT_LENGTH

/-- Everything `orchestrate_agent` does after its two validations: row
creation in one transaction, the two start events, and the spawned loop
(modelled as running to completion; its events follow the start events in
the order the single producing task publishes them).  The Rust function
itself returns the freshly inserted `running` row before the loop ends. -/
def orchestrateAgentBody (env : Env) (db : Db) (req : OrchestrateRequest) :
    Except AppError OrchestrationRun × Db × List ExecutionEvent :=
  if !db.available then (.error .databaseUnavailable, db, [])
  else
    match findRow (fun a => a.id == req.agentId && a.isActive) db.agents with
    | none => (.error .notFound, db, [])
    | some agent =>
      match findRow (fun p => p.id == agent.llmProviderId && p.isEnabled) db.llmProviders with
      | none => (.error .notFound, db, [])
      | some providerRow =>
        let (wrId, db) := db.freshId
        let workflowRun : WorkflowRun :=
          { id := wrId, workflowId := agent.workflowId,
            status := STATUS_RUNNING, errorMessage := none }
        let db := { db with workflowRuns := db.workflowRuns ++ [workflowRun] }
        let (exId, db) := db.freshId
        let execution : AgentExecution :=
          { id := exId, agentId := agent.id,
            workflowRunId := some wrId, status := STATUS_RUNNING,
            inputText := some req.input, outputText := none, tokenUsage := none,
            durationMs := none, errorMessage := none }
        let db := { db with agentExecutions := db.agentExecutions ++ [execution] }
        let (orId, db) := db.freshId
        let orchestrationRun : OrchestrationRun :=
          { id := orId, orchestratorAgentId := agent.id,
            workflowRunId := wrId, executionId := exId, mode := req.mode,
            status := STATUS_RUNNING, planJson := none, messagesJson := none,
            finalOutput := none }
        let db := { db with orchestrationRuns := db.orchestrationRuns ++ [orchestrationRun] }
        let events :=
          [ExecutionEvent.workflowRunStarted wrId agent.workflowId,
            ExecutionEvent.agentExecutionStarted exId agent.id]
        let ctx : OrchestrationContext :=
          { orchestrationRunId := orId, executionId := exId,
            orchestratorAgentId := agent.id, workflowId := agent.workflowId,
            llmProviderId := agent.llmProviderId, providerName := providerRow.name,
            model := agent.model,
            systemPrompt := some (buildOrchestratorSystem agent.systemPrompt),
            maxTokens := agent.maxTokens }
        let messages : List LlmMessage := [⟨ROLE_USER, .text req.input⟩]
        let loopResult :=
          if req.mode == MODE_APPROVAL then runToolLoopApproval env ctx messages db
          else runToolLoop env ctx messages db
        (.ok orchestrationRun, loopResult.db, events ++ loopResult.events)

/-- `orchestrate_agent`: mode validation and the input-size gate run before
any database access. -/
def orchestrateAgent (env : Env) (db : Db) (req : OrchestrateRequest) :
    Except AppError OrchestrationRun × Db × List ExecutionEvent :=
  match validateMode req.mode with
  | .error e => (.error e, db, [])
  | .ok _ =>
    if inputTooLong req.input then
      (.error (.invalidInput ("Input text too long (" ++ toString req.input.utf8ByteSize ++
        " bytes). Maximum is " ++ toString MAX_INPUT_LENGTH ++ " bytes.")), db, [])
    else orchestrateAgentBody env db req

/-- `reject_orchestration`. -/
def rejectOrchestration (db : Db) (orchestrationRunId : Uuid) :
    Except AppError OrchestrationRun × Db × List ExecutionEvent :=
  if !db.available then (.error .databaseUnavailable, db, [])
  else
    match findRow (fun r => r.id == orchestrationRunId) db.orchestrationRuns with
    | none => (.error .notFound, db, [])
    | some orchRun =>
      if orchRun.status != STATUS_AWAITING_APPROVAL then
        (.error (.invalidInput ("Orchestration run is not awaiting approval (status: " ++
          orchRun.status ++ ")")), db, [])
      else
        let db2 := finalizeOrchestration db orchestrationRunId orchRun.executionId
          STATUS_REJECTED none (some "Plan rejected by user")
        match findRow (fun r => r.id == orchestrationRunId) db2.orchestrationRuns with
        | none => (.error (.database "row not found"), db2, [])
        | some updated =>
            (.ok updated, db2,
              [.orchestratorPlanRejected orchestrationRunId orchRun.orchestratorAgentId])

/-! ## Derived observations used by the claims -/

/-- First row of the orchestration-run table with the given id. -/
def getRun (db : Db) (id : Uuid) : Option OrchestrationRun :=
  findRow (fun r => r.id == id) db.orchestrationRuns

/-- First row of the agent-execution table with the given id. -/
def getExec (db : Db) (id : Uuid) : Option AgentExecution :=
  findRow (fun e => e.id == id) db.agentExecutions

/-- First row of the workflow-run table with the given id. -/
def getWf (db : Db) (id : Uuid) : Option WorkflowRun :=
  findRow (fun w => w.id == id) db.workflowRuns

/-- The ids of the `tool_use` blocks of a block list, in order. -/
def toolUseIds (bs : List ContentBlock) : List String :=
  bs.filterMap fun b =>
    match b with
    | .toolUse id _ _ => some id
    | _ => none

/-- The `tool_use_id`s of the `tool_result` blocks of a block list, in order. -/
def toolResultIds (bs : List ContentBlock) : List String :=
  bs.filterMap fun b =>
    match b with
    | .toolResult tid _ _ => some tid
    | _ => none

/-- `matches!(b, ContentBlock::ToolResult { .. })` -/
def ContentBlock.isToolResult : ContentBlock → Bool
  | .toolResult _ _ _ => true
  | _ => false

/-- The completion-or-failure delivery events claim C5 expects for the
linked execution and workflow run. -/
def isTerminalDeliveryEvent : ExecutionEvent → Bool
  | .agentExecutionCompleted _ _ _ _ => true
  | .agentExecutionFailed _ _ _ => true
  | .workflowRunCompleted _ _ _ => true
  | _ => false

/-- The per-turn property claim C2 asserts, written from the spec's wording
(to be compared with what the embedded loop actually produces): the user
message holds only `tool_result` blocks, exactly one per `tool_use` of the
assistant message, with equal ids in the same order. -/
def matchedTurn (assistantBlocks userBlocks : List ContentBlock) : Prop :=
  (∀ b ∈ userBlocks, b.isToolResult = true) ∧
  userBlocks.length = (toolUseIds assistantBlocks).length ∧
  toolResultIds userBlocks = toolUseIds assistantBlocks

/-- The shape of the conversation suffix the automatic loop appends:
assistant/user pairs, each satisfying `matchedTurn`. -/
inductive MatchedTurns : List LlmMessage → Prop where
  | nil : MatchedTurns []
  | pair (bs rs : List ContentBlock) (rest : List LlmMessage) :
      matchedTurn bs rs → MatchedTurns rest →
      MatchedTurns (⟨ROLE_ASSISTANT, .blocks bs⟩ :: ⟨ROLE_USER, .blocks rs⟩ :: rest)

/-! ## Shared witness fixtures -/

namespace Fixtures

/-- An environment with no registered providers and a failing UUID parser. -/
def envEmpty : Env :=
  { registry := fun _ => none, parseUuid := fun _ => none, durationMs := 0 }

/-- An empty, available database. -/
def dbEmpty : Db :=
  { available := true, nextId := 0, agents := [], llmProviders := [],
    workflowRuns := [], agentExecutions := [], orchestrationRuns := [],
    agentMessages := [] }

/-- A concrete orchestration context for closed instances. -/
def ctxA : OrchestrationContext :=
  { orchestrationRunId := ⟨100⟩, executionId := ⟨101⟩, orchestratorAgentId := ⟨102⟩,
    workflowId := ⟨103⟩, llmProviderId := ⟨3⟩, providerName := "anthropic",
    model := "claude", systemPrompt := none, maxTokens := 1024 }

/-- A registered, active sub-agent. -/
def agentA : Agent :=
  { id := ⟨1⟩, workflowId := ⟨103⟩, llmProviderId := ⟨3⟩, name := "A",
    description := none, systemPrompt := none, model := "claude",
    maxTokens := 256, isActive := true }

/-- The enabled provider row of `agentA`. -/
def providerP : LlmProviderRow := { id := ⟨3⟩, name := "anthropic", isEnabled := true }

/-- A database holding `agentA` and its provider. -/
def dbAgents : Db :=
  { available := true, nextId := 10, agents := [agentA], llmProviders := [providerP],
    workflowRuns := [], agentExecutions := [], orchestrationRuns := [],
    agentMessages := [] }

/-- An environment whose provider always fails the model call and whose
UUID parser accepts exactly the id string of `agentA`. -/
def envModelFails : Env :=
  { registry := fun _ => some (fun _ => .error (.llmError "model call failed")),
    parseUuid := fun s => if s == "agent-1" then some ⟨1⟩ else none,
    durationMs := 7 }

/-- A running orchestration run matching `ctxA`. -/
def runA : OrchestrationRun :=
  { id := ⟨100⟩, orchestratorAgentId := ⟨102⟩, workflowRunId := ⟨200⟩,
    executionId := ⟨101⟩, mode := MODE_APPROVAL, status := STATUS_RUNNING,
    planJson := none, messagesJson := none, finalOutput := none }

/-- The running top-level execution of `runA`. -/
def execA : AgentExecution :=
  { id := ⟨101⟩, agentId := ⟨102⟩, workflowRunId := some ⟨200⟩,
    status := STATUS_RUNNING, inputText := some "hi", outputText := none,
    tokenUsage := none, durationMs := none, errorMessage := none }

/-- The running workflow run of `runA`. -/
def wfA : WorkflowRun :=
  { id := ⟨200⟩, workflowId := ⟨103⟩, status := STATUS_RUNNING, errorMessage := none }

/-- A database holding the linked running rows of one orchestration. -/
def dbRun : Db :=
  { available := true, nextId := 300, agents := [], llmProviders := [],
    workflowRuns := [wfA], agentExecutions := [execA], orchestrationRuns := [runA],
    agentMessages := [] }

/-- A run suspended awaiting approval. -/
def runAwaiting : OrchestrationRun :=
  { id := ⟨100⟩, orchestratorAgentId := ⟨102⟩, workflowRunId := ⟨200⟩,
    executionId := ⟨101⟩, mode := MODE_APPROVAL, status := STATUS_AWAITING_APPROVAL,
    planJson := some (.obj [("steps", .arr []), ("text", .str "plan")]),
    messagesJson := some (.arr []), finalOutput := none }

/-- A database whose one run is awaiting approval. -/
def dbAwaiting : Db :=
  { available := true, nextId := 300, agents := [], llmProviders := [],
    workflowRuns := [wfA], agentExecutions := [execA],
    orchestrationRuns := [runAwaiting], agentMessages := [] }

/-- A provider that always stops with `max_tokens`. -/
def envMaxTokens : Env :=
  { registry := fun _ =>
      some (fun _ =>
        .ok { content := "T", contentBlocks := [], stopReason := some "max_tokens" }),
    parseUuid := fun _ => none, durationMs := 0 }

/-- A provider that immediately ends its turn with output "hello". -/
def envEndTurn : Env :=
  { registry := fun _ =>
      some (fun _ =>
        .ok { content := "hello", contentBlocks := [.text "hello"],
              stopReason := some "end_turn" }),
    parseUuid := fun _ => none, durationMs := 0 }

/-- A provider that always wants another tool call (runaway loop). -/
def envAlwaysTool : Env :=
  { registry := fun _ =>
      some (fun _ =>
        .ok { content := "", contentBlocks := [], stopReason := some "tool_use" }),
    parseUuid := fun _ => none, durationMs := 0 }

/-- A provider that proposes two tool calls on its first turn. -/
def envTwoTools : Env :=
  { registry := fun _ =>
      some (fun _ =>
        .ok { content := "plan",
              contentBlocks :=
                [.text "plan",
                 .toolUse "t1" TOOL_CREATE_SUB_AGENT (.obj [("name", .str "R")]),
                 .toolUse "t2" TOOL_GET_SUB_AGENT_RESULT (.obj [])],
              stopReason := some "tool_use" }),
    parseUuid := fun _ => none, durationMs := 0 }

/-- An environment that parses `agentA`'s id but has an empty provider
registry. -/
def envNoRegistry : Env :=
  { registry := fun _ => none,
    parseUuid := fun s => if s == "agent-1" then some ⟨1⟩ else none,
    durationMs := 0 }

/-- A 100 001-byte input string (kept irreducible so that proof automation
never unfolds the 100 001-element character list). -/
@[irreducible] def bigInput : String := String.replicate 100001 'a'

end Fixtures

/-! ## Generic list lemmas -/

theorem updateWhere_find? {α} (p q : α → Bool) (f : α → α)
    (hq : ∀ x, q (f x) = q x) (l : List α) :
    (updateWhere p f l).find? q = (l.find? q).map (fun x => if p x then f x else x) := by
  induction l with
  | nil => rfl
  | cons x xs ih =>
    by_cases hx : q x = true
    · have hx2 : q (if p x then f x else x) = true := by
        by_cases hpx : p x = true <;> simp [hpx, hq, hx]
      simp [updateWhere, List.find?, hx, hx2]
    · have hx' : q x = false := by simp at hx; exact hx
      have hx2 : q (if p x then f x else x) = false := by
        by_cases hpx : p x = true <;> simp [hpx, hq, hx']
      simpa [updateWhere, List.find?, hx', hx2] using ih

theorem updateWhere_find?_self {α} (p : α → Bool) (f : α → α)
    (hp : ∀ x, p (f x) = p x) (l : List α) :
    (updateWhere p f l).find? p = (l.find? p).map f := by
  rw [updateWhere_find? p p f hp l]
  cases h : l.find? p with
  | none => rfl
  | some x =>
    have := List.find?_some h
    simp [this]

theorem updateWhere_find?_isSome {α} (p q : α → Bool) (f : α → α)
    (hq : ∀ x, q (f x) = q x) (l : List α) :
    ((updateWhere p f l).find? q).isSome = (l.find? q).isSome := by
  rw [updateWhere_find? p q f hq l]
  cases l.find? q <;> rfl

theorem find?_append_isSome {α} (q : α → Bool) (l₁ l₂ : List α) :
    (l₁.find? q).isSome = true → ((l₁ ++ l₂).find? q).isSome = true := by
  intro h
  rw [List.find?_append]
  cases hh : l₁.find? q with
  | none => rw [hh] at h; simp at h
  | some x => simp [hh]

/-! ## String size helper for the 100 KB gate -/

theorem utf8ByteSizeGo_replicate (n : Nat) :
    String.utf8ByteSize.go (List.replicate n 'a') = n := by
  induction n with
  | zero => rfl
  | succ k ih =>
    simp only [List.replicate, String.utf8ByteSize.go, ih]
    rfl

theorem utf8ByteSize_replicate (n : Nat) :
    (String.replicate n 'a').utf8ByteSize = n := by
  simp only [String.replicate, String.utf8ByteSize]
  exact utf8ByteSizeGo_replicate n

theorem bigInput_size : Fixtures.bigInput.utf8ByteSize = 100001 := by
  unfold Fixtures.bigInput
  exact utf8ByteSize_replicate 100001

/-! ## C7 — stop-reason normalization across providers -/

/-- C7 counterexample: the anthropic provider does *not* force
`stop_reason = "tool_use"` when a `tool_use` block is present — it passes the
wire value through.  A parsed Anthropic response carrying one `tool_use`
block and `stop_reason = "max_tokens"` normalizes to `max_tokens`. -/
theorem c7_counterexample_anthropic_passthrough :
    (anthropicNormalize
        { content := [.toolUse "toolu_01" "create_sub_agent" (.obj [])],
          stopReason := some "max_tokens" }).contentBlocks.any
      ContentBlock.isToolUse = true ∧
    (anthropicNormalize
        { content := [.toolUse "toolu_01" "create_sub_agent" (.obj [])],
          stopReason := some "max_tokens" }).stopReason = some "max_tokens" ∧
    (some "max_tokens" : Option String) ≠ some STOP_TOOL_USE :=
  ⟨rfl, rfl, by decide⟩

/-- C7 (amended): only the google provider (`GeminiProvider::complete`)
forces `stop_reason = "tool_use"` whenever the normalized blocks contain a
`tool_use` block; the anthropic provider returns the provider-reported stop
reason unchanged. -/
theorem c7_tool_use_stop_reason :
    (∀ parts finishReason,
      (geminiNormalize parts finishReason).contentBlocks.any ContentBlock.isToolUse = true →
      (geminiNormalize parts finishReason).stopReason = some STOP_TOOL_USE) ∧
    (∀ api, (anthropicNormalize api).stopReason = api.stopReason) := by
  constructor
  · intro parts finishReason h
    simp only [geminiNormalize] at h ⊢
    simp [h, STOP_TOOL_USE]
  · intro api
    rfl

/-- C7 witness: a Gemini response with one function call normalizes with
`stop_reason = "tool_use"` even though the wire finish reason was `STOP`. -/
theorem c7_tool_use_stop_reason_witness :
    (geminiNormalize [.functionCall ⟨"create_sub_agent", .obj []⟩]
        (some "STOP")).contentBlocks.any ContentBlock.isToolUse = true ∧
    (geminiNormalize [.functionCall ⟨"create_sub_agent", .obj []⟩]
        (some "STOP")).stopReason = some STOP_TOOL_USE :=
  ⟨rfl, c7_tool_use_stop_reason.1 [.functionCall ⟨"create_sub_agent", .obj []⟩]
    (some "STOP") rfl⟩

/-! ## C9 — the 100 KB input gate of `orchestrate_agent` -/

/-- C9: a start request whose input exceeds 100 000 bytes is rejected with
an `invalid_input` error before any database access — the database value is
returned untouched and no event is published; an input of exactly
100 000 bytes passes the size check, and `orchestrate_agent` proceeds to
its database work. -/
theorem c9_input_size_gate :
    (∀ (env : Env) (db : Db) (req : OrchestrateRequest),
      MAX_INPUT_LENGTH < req.input.utf8ByteSize →
      ∃ m, orchestrateAgent env db req = (.error (.invalidInput m), db, [])) ∧
    (∀ (env : Env) (db : Db) (req : OrchestrateRequest),
      validateMode req.mode = .ok () →
      req.input.utf8ByteSize = MAX_INPUT_LENGTH →
      orchestrateAgent env db req = orchestrateAgentBody env db req) := by
  constructor
  · intro env db req h
    have htoo : inputTooLong req.input = true := by
      simp only [inputTooLong, gt_iff_lt, decide_eq_true_eq]
      omega
    by_cases hm : req.mode = MODE_AUTOMATIC ∨ req.mode = MODE_APPROVAL
    · refine ⟨"Input text too long (" ++ toString req.input.utf8ByteSize ++
        " bytes). Maximum is " ++ toString MAX_INPUT_LENGTH ++ " bytes.", ?_⟩
      unfold orchestrateAgent validateMode
      simp [hm, htoo]
    · refine ⟨"Invalid orchestration mode '" ++ req.mode ++ "'. Must be '" ++
        MODE_AUTOMATIC ++ "' or '" ++ MODE_APPROVAL ++ "'.", ?_⟩
      unfold orchestrateAgent validateMode
      simp [hm]
  · intro env db req hv hlen
    have htoo : inputTooLong req.input = false := by
      simp only [inputTooLong, gt_iff_lt, hlen, decide_eq_false_iff_not]
      omega
    unfold orchestrateAgent
    rw [hv]
    simp [htoo]

/-- C9 witness: a 100 001-byte input is rejected with the database
untouched, and a 100 000-byte input passes the size check. -/
theorem c9_input_size_gate_witness :
    (MAX_INPUT_LENGTH <
        (String.replicate 100001 'a').utf8ByteSize ∧
      ∃ m, orchestrateAgent Fixtures.envEmpty Fixtures.dbEmpty
          ⟨⟨0⟩, String.replicate 100001 'a', MODE_AUTOMATIC⟩ =
        (.error (.invalidInput m), Fixtures.dbEmpty, [])) ∧
    (validateMode MODE_AUTOMATIC = .ok () ∧
      (String.replicate 100000 'a').utf8ByteSize = MAX_INPUT_LENGTH ∧
      orchestrateAgent Fixtures.envEmpty Fixtures.dbEmpty
          ⟨⟨0⟩, String.replicate 100000 'a', MODE_AUTOMATIC⟩ =
        orchestrateAgentBody Fixtures.envEmpty Fixtures.dbEmpty
          ⟨⟨0⟩, String.replicate 100000 'a', MODE_AUTOMATIC⟩) := by
  have h1 : MAX_INPUT_LENGTH < (String.replicate 100001 'a').utf8ByteSize := by
    rw [utf8ByteSize_replicate]
    decide
  have h2 : (String.replicate 100000 'a').utf8ByteSize = MAX_INPUT_LENGTH := by
    rw [utf8ByteSize_replicate]
    rfl
  have h3 : validateMode MODE_AUTOMATIC = .ok () := rfl
  exact ⟨⟨h1, c9_input_size_gate.1 Fixtures.envEmpty Fixtures.dbEmpty _ h1⟩,
    ⟨h3, h2, c9_input_size_gate.2 Fixtures.envEmpty Fixtures.dbEmpty _ h3 h2⟩⟩

/-! ## C6 — defensive extraction of tool inputs -/

/-- C6 counterexample: `create_sub_agent` invoked with an empty input object
(all three required fields missing) does *not* return `is_error = true` — it
defaults `name` to "Sub Agent", `description` to the empty string and
`system_prompt` to null, inserts the agent, and returns success. -/
theorem c6_counterexample_create_defaults :
    (handleToolCall Fixtures.envEmpty Fixtures.ctxA Fixtures.dbEmpty
        TOOL_CREATE_SUB_AGENT (.obj [])).1 =
      (Json.render (.obj [("agent_id", .str "0"), ("name", .str "Sub Agent"),
        ("status", .str "created")]), false) ∧
    (handleToolCall Fixtures.envEmpty Fixtures.ctxA Fixtures.dbEmpty
        TOOL_CREATE_SUB_AGENT (.obj [])).2.1.agents =
      [{ id := ⟨0⟩,
         workflowId := ⟨103⟩, llmProviderId := ⟨3⟩, name := "Sub Agent",
         description := some "", systemPrompt := none, model := "claude",
         maxTokens := 2048, isActive := true }] :=
  ⟨rfl, rfl⟩

/-- C6 (amended): only the id arguments are rejected: a missing or
wrongly-typed `agent_id`/`execution_id` defaults to `""`, fails UUID parsing
and produces `is_error = true`; the fields of `create_sub_agent` (and
`execute_sub_agent`'s `input`) are *defaulted* (`"Sub Agent"`, `""`, null)
rather than producing an error, and no case aborts the loop. -/
theorem c6_defensive_input_extraction :
    (∀ (env : Env) (ctx : OrchestrationContext) (db : Db) (input : Json),
      (Json.index input "agent_id").asStr = none →
      env.parseUuid "" = none →
      (handleToolCall env ctx db TOOL_EXECUTE_SUB_AGENT input) =
        (("Invalid agent_id: ", true), db, [])) ∧
    (∀ (env : Env) (ctx : OrchestrationContext) (db : Db) (input : Json),
      (Json.index input "execution_id").asStr = none →
      env.parseUuid "" = none →
      (handleToolCall env ctx db TOOL_GET_SUB_AGENT_RESULT input) =
        (("Invalid execution_id: ", true), db, [])) ∧
    (∀ (env : Env) (ctx : OrchestrationContext) (db : Db) (input : Json),
      db.available = true →
      (Json.index input "name").asStr = none →
      (Json.index input "description").asStr = none →
      (Json.index input "system_prompt").asStr = none →
      (handleToolCall env ctx db TOOL_CREATE_SUB_AGENT input) =
        ((Json.render (.obj [("agent_id", .str (Uuid.render ⟨db.nextId⟩)),
            ("name", .str "Sub Agent"), ("status", .str "created")]), false),
          { db with
            nextId := db.nextId + 1,
            agents := db.agents ++
              [{ id := ⟨db.nextId⟩,
                 workflowId := ctx.workflowId,
                 llmProviderId := ctx.llmProviderId, name := "Sub Agent",
                 description := some "", systemPrompt := none, model := ctx.model,
                 maxTokens := 2048, isActive := true }] },
          [ExecutionEvent.subAgentCreated ⟨db.nextId⟩ ctx.orchestratorAgentId
            "Sub Agent" "" ctx.workflowId])) := by
  refine ⟨?_, ?_, ?_⟩
  · intro env ctx db input h1 h2
    unfold handleToolCall
    rw [if_neg (by decide), if_pos (by decide), h1]
    simp only [Option.getD]
    rw [h2]
    rfl
  · intro env ctx db input h1 h2
    unfold handleToolCall
    rw [if_neg (by decide), if_neg (by decide), if_pos (by decide), h1]
    simp only [Option.getD]
    rw [h2]
    rfl
  · intro env ctx db input hav h1 h2 h3
    unfold handleToolCall
    rw [if_pos (by decide), h1, h2, h3]
    simp [hav, Db.freshId]

/-- C6 witness: concrete instantiations of the three conjuncts. -/
theorem c6_defensive_input_extraction_witness :
    ((Json.index (.obj []) "agent_id").asStr = none ∧
      Fixtures.envEmpty.parseUuid "" = none ∧
      (handleToolCall Fixtures.envEmpty Fixtures.ctxA Fixtures.dbEmpty
          TOOL_EXECUTE_SUB_AGENT (.obj [])) =
        (("Invalid agent_id: ", true), Fixtures.dbEmpty, [])) ∧
    ((Json.index (.obj [("execution_id", .num 5)]) "execution_id").asStr = none ∧
      (handleToolCall Fixtures.envEmpty Fixtures.ctxA Fixtures.dbEmpty
          TOOL_GET_SUB_AGENT_RESULT (.obj [("execution_id", .num 5)])) =
        (("Invalid execution_id: ", true), Fixtures.dbEmpty, [])) ∧
    (Fixtures.dbEmpty.available = true ∧
      (handleToolCall Fixtures.envEmpty Fixtures.ctxA Fixtures.dbEmpty
          TOOL_CREATE_SUB_AGENT (.obj [])) =
        ((Json.render (.obj [("agent_id", .str (Uuid.render ⟨Fixtures.dbEmpty.nextId⟩)),
            ("name", .str "Sub Agent"), ("status", .str "created")]), false),
          { Fixtures.dbEmpty with
            nextId := Fixtures.dbEmpty.nextId + 1,
            agents := Fixtures.dbEmpty.agents ++
              [{ id := ⟨Fixtures.dbEmpty.nextId⟩,
                 workflowId := Fixtures.ctxA.workflowId,
                 llmProviderId := Fixtures.ctxA.llmProviderId, name := "Sub Agent",
                 description := some "", systemPrompt := none,
                 model := Fixtures.ctxA.model, maxTokens := 2048, isActive := true }] },
          [ExecutionEvent.subAgentCreated ⟨Fixtures.dbEmpty.nextId⟩
            Fixtures.ctxA.orchestratorAgentId "Sub Agent" "" Fixtures.ctxA.workflowId])) :=
  ⟨⟨rfl, rfl, c6_defensive_input_extraction.1 Fixtures.envEmpty Fixtures.ctxA
      Fixtures.dbEmpty (.obj []) rfl rfl⟩,
    ⟨rfl, c6_defensive_input_extraction.2.1 Fixtures.envEmpty Fixtures.ctxA
      Fixtures.dbEmpty (.obj [("execution_id", .num 5)]) rfl rfl⟩,
    ⟨rfl, c6_defensive_input_extraction.2.2 Fixtures.envEmpty Fixtures.ctxA
      Fixtures.dbEmpty (.obj []) rfl rfl rfl rfl⟩⟩

/-! ## C10 — sub-agent model failures inside `execute_sub_agent` -/

/-- C10 (amended): when the sub-agent's model call fails, `execute_agent`
still returns `Ok` carrying the execution row with status `failed` and no
output, so the tool result is `is_error = false` with JSON content reporting
status "failed" and an empty output string; but `is_error = true` is *not*
limited to lookup failures and malformed ids — any `execute_agent` error is
reported that way, in particular an input above the 100 KB cap. -/
theorem c10_execute_sub_agent_failure_reporting :
    ∀ (env : Env) (ctx : OrchestrationContext) (db : Db) (s inp : String) (aid : Uuid)
      (agent : Agent) (providerRow : LlmProviderRow)
      (complete : LlmRequest → Except AppError LlmResponse) (err : AppError),
      env.parseUuid s = some aid →
      db.available = true →
      findRow (fun a => a.id == aid && a.isActive) db.agents = some agent →
      findRow (fun p => p.id == agent.llmProviderId && p.isEnabled) db.llmProviders =
        some providerRow →
      env.registry providerRow.name = some complete →
      complete { model := agent.model,
                 messages := [⟨ROLE_USER, .text inp⟩],
                 system := agent.systemPrompt, maxTokens := agent.maxTokens,
                 tools := none } =
        .error err →
      (inp.utf8ByteSize ≤ MAX_INPUT_LENGTH →
        (∃ exec db2 evs,
          executeAgent env db { agentId := aid, input := inp } = (.ok exec, db2, evs) ∧
          exec.status = STATUS_FAILED ∧ exec.outputText = none ∧
          exec.errorMessage = some err.toMessage) ∧
        (handleToolCall env ctx db TOOL_EXECUTE_SUB_AGENT
            (.obj [("agent_id", .str s), ("input", .str inp)])).1 =
          (Json.render (.obj [("execution_id", .str (Uuid.render ⟨db.nextId + 1⟩)),
            ("status", .str STATUS_FAILED), ("output", .str "")]), false)) ∧
      (MAX_INPUT_LENGTH < inp.utf8ByteSize →
        ((handleToolCall env ctx db TOOL_EXECUTE_SUB_AGENT
            (.obj [("agent_id", .str s), ("input", .str inp)])).1).2 = true) := by
  intro env ctx db s inp aid agent providerRow complete err hparse hav hagent hprov hreg hcomp
  have hget1 : ((Json.obj [("agent_id", Json.str s), ("input", Json.str inp)]).index
      "agent_id").asStr = some s := rfl
  have hget2 : ((Json.obj [("agent_id", Json.str s), ("input", Json.str inp)]).index
      "input").asStr = some inp := rfl
  constructor
  · intro hsize
    have hnot : ¬ inp.utf8ByteSize > MAX_INPUT_LENGTH := by omega
    have hexec : executeAgent env db { agentId := aid, input := inp } =
        (.ok { id := ⟨db.nextId + 1⟩,
               agentId := agent.id,
               workflowRunId := some ⟨db.nextId⟩, status := STATUS_FAILED,
               inputText := some inp, outputText := none, tokenUsage := none,
               durationMs := some env.durationMs,
               errorMessage := some err.toMessage },
          { db with
            nextId := db.nextId + 2,
            workflowRuns := updateWhere (fun w => w.id == (⟨db.nextId⟩ : Uuid))
              (fun w => { w with
                status := STATUS_FAILED, errorMessage := some err.toMessage })
              (db.workflowRuns ++
                [{ id := ⟨db.nextId⟩,
                   workflowId := agent.workflowId,
                   status := STATUS_RUNNING, errorMessage := none }]),
            agentExecutions := updateWhere (fun e => e.id == (⟨db.nextId + 1⟩ : Uuid))
              (fun e => { e with
                status := STATUS_FAILED, errorMessage := some err.toMessage,
                durationMs := some env.durationMs })
              (db.agentExecutions ++
                [{ id := ⟨db.nextId + 1⟩,
                   agentId := agent.id,
                   workflowRunId := some ⟨db.nextId⟩, status := STATUS_RUNNING,
                   inputText := some inp, outputText := none, tokenUsage := none,
                   durationMs := none, errorMessage := none }]) },
          [ExecutionEvent.workflowRunStarted ⟨db.nextId⟩ agent.workflowId,
            ExecutionEvent.agentExecutionStarted ⟨db.nextId + 1⟩ agent.id,
            ExecutionEvent.agentExecutionFailed ⟨db.nextId + 1⟩ agent.id err.toMessage,
            ExecutionEvent.workflowRunCompleted ⟨db.nextId⟩ agent.workflowId
              STATUS_FAILED]) := by
      simp [executeAgent, hnot, hav, hagent, hprov, hreg, hcomp, Db.freshId]
    refine ⟨⟨_, _, _, hexec, rfl, rfl, rfl⟩, ?_⟩
    have hne : TOOL_EXECUTE_SUB_AGENT ≠ TOOL_CREATE_SUB_AGENT := by decide
    simp [handleToolCall, hget1, hget2, hparse, hexec, hne]
  · intro hgt
    have hexec2 : executeAgent env db { agentId := aid, input := inp } =
        (.error (.invalidInput ("Input text too long (" ++ toString inp.utf8ByteSize ++
          " bytes). Maximum is " ++ toString MAX_INPUT_LENGTH ++ " bytes.")), db, []) := by
      unfold executeAgent
      rw [if_pos hgt]
    have hne : TOOL_EXECUTE_SUB_AGENT ≠ TOOL_CREATE_SUB_AGENT := by decide
    simp [handleToolCall, hget1, hget2, hparse, hexec2, hne]

/-- C10 counterexample: `is_error = true` is *not* produced only when the
agent cannot be looked up or the id is malformed: with a well-formed id and
an existing active agent, `execute_agent` fails with `LlmError` when the
agent's provider is missing from the registry, and `execute_sub_agent`
reports that as an error tool result. -/
theorem c10_counterexample_provider_not_registered :
    Fixtures.envNoRegistry.parseUuid "agent-1" = some Fixtures.agentA.id ∧
    findRow (fun a => a.id == Fixtures.agentA.id && a.isActive) Fixtures.dbAgents.agents =
      some Fixtures.agentA ∧
    (handleToolCall Fixtures.envNoRegistry Fixtures.ctxA Fixtures.dbAgents
        TOOL_EXECUTE_SUB_AGENT
        (.obj [("agent_id", .str "agent-1"), ("input", .str "hi")])).1 =
      ("Execution failed: " ++
        (AppError.llmError "Provider 'anthropic' not registered").toMessage, true) :=
  ⟨rfl, rfl, rfl⟩

/-- C10 witness: a failing model call behind `execute_sub_agent` yields an
`Ok` execution row with status `failed` and a non-error tool result. -/
theorem c10_execute_sub_agent_failure_reporting_witness :
    (Fixtures.envModelFails.parseUuid "agent-1" = some (⟨1⟩ : Uuid) ∧
      Fixtures.dbAgents.available = true ∧
      "hi".utf8ByteSize ≤ MAX_INPUT_LENGTH) ∧
    ((∃ exec db2 evs,
        executeAgent Fixtures.envModelFails Fixtures.dbAgents
          { agentId := ⟨1⟩, input := "hi" } = (.ok exec, db2, evs) ∧
        exec.status = STATUS_FAILED ∧ exec.outputText = none ∧
        exec.errorMessage = some (AppError.llmError "model call failed").toMessage) ∧
      (handleToolCall Fixtures.envModelFails Fixtures.ctxA Fixtures.dbAgents
          TOOL_EXECUTE_SUB_AGENT
          (.obj [("agent_id", .str "agent-1"), ("input", .str "hi")])).1 =
        (Json.render (.obj [("execution_id",
            .str (Uuid.render ⟨Fixtures.dbAgents.nextId + 1⟩)),
          ("status", .str STATUS_FAILED), ("output", .str "")]), false)) :=
  ⟨⟨rfl, rfl, by decide⟩,
    (c10_execute_sub_agent_failure_reporting Fixtures.envModelFails Fixtures.ctxA
      Fixtures.dbAgents "agent-1" "hi" ⟨1⟩ Fixtures.agentA Fixtures.providerP
      (fun _ => .error (.llmError "model call failed"))
      (.llmError "model call failed") rfl rfl rfl rfl rfl rfl).1 (by decide)⟩

/-! ## Per-table effects of `finalize_orchestration` -/

theorem finalize_orchestrationRuns (db : Db) (rid eid : Uuid) (st : String)
    (fo em : Option String) (hav : db.available = true) :
    (finalizeOrchestration db rid eid st fo em).orchestrationRuns =
      updateWhere (fun r => r.id == rid)
        (fun r => { r with status := st, finalOutput := fo }) db.orchestrationRuns := by
  unfold finalizeOrchestration
  simp only [hav, Bool.not_true, Bool.false_eq_true, if_false]
  split <;> rfl

theorem getRun_finalize (db : Db) (rid eid : Uuid) (st : String)
    (fo em : Option String) (hav : db.available = true) :
    getRun (finalizeOrchestration db rid eid st fo em) rid =
      (getRun db rid).map (fun r => { r with status := st, finalOutput := fo }) := by
  unfold getRun findRow
  rw [finalize_orchestrationRuns db rid eid st fo em hav]
  apply updateWhere_find?_self
  intro x
  rfl

theorem finalize_agentExecutions (db : Db) (rid eid : Uuid) (st : String)
    (fo em : Option String) (hav : db.available = true) (es : String)
    (hes : (if st == STATUS_COMPLETED then some STATUS_COMPLETED
      else if st == STATUS_FAILED || st == STATUS_REJECTED then some STATUS_FAILED
      else none) = some es) :
    (finalizeOrchestration db rid eid st fo em).agentExecutions =
      updateWhere (fun e => e.id == eid)
        (fun e => { e with status := es, outputText := fo, errorMessage := em })
        db.agentExecutions := by
  unfold finalizeOrchestration
  simp only [hav, Bool.not_true, Bool.false_eq_true, if_false]
  rw [hes]

theorem getExec_finalize (db : Db) (rid eid : Uuid) (st : String)
    (fo em : Option String) (hav : db.available = true) (es : String)
    (hes : (if st == STATUS_COMPLETED then some STATUS_COMPLETED
      else if st == STATUS_FAILED || st == STATUS_REJECTED then some STATUS_FAILED
      else none) = some es) :
    getExec (finalizeOrchestration db rid eid st fo em) eid =
      (getExec db eid).map
        (fun e => { e with status := es, outputText := fo, errorMessage := em }) := by
  unfold getExec findRow
  rw [finalize_agentExecutions db rid eid st fo em hav es hes]
  apply updateWhere_find?_self
  intro x
  rfl

theorem finalize_workflowRuns (db : Db) (rid eid : Uuid) (st : String)
    (fo em : Option String) (hav : db.available = true) (es : String)
    (hes : (if st == STATUS_COMPLETED then some STATUS_COMPLETED
      else if st == STATUS_FAILED || st == STATUS_REJECTED then some STATUS_FAILED
      else none) = some es) :
    (finalizeOrchestration db rid eid st fo em).workflowRuns =
      updateWhere
        (fun w => some w.id == (getRun db rid).map (fun r => r.workflowRunId) &&
          w.status == STATUS_RUNNING)
        (fun w => { w with
          status := if st == STATUS_COMPLETED then STATUS_COMPLETED else STATUS_FAILED,
          errorMessage := em })
        db.workflowRuns := by
  unfold finalizeOrchestration
  simp only [hav, Bool.not_true, Bool.false_eq_true, if_false]
  rw [hes]
  have hfind : (findRow (fun r => r.id == rid)
      (updateWhere (fun r => r.id == rid)
        (fun r => { r with status := st, finalOutput := fo }) db.orchestrationRuns)) =
      (findRow (fun r => r.id == rid) db.orchestrationRuns).map
        (fun r => { r with status := st, finalOutput := fo }) := by
    unfold findRow
    apply updateWhere_find?_self
    intro x
    rfl
  rw [hfind]
  unfold getRun
  cases findRow (fun r => r.id == rid) db.orchestrationRuns <;> rfl

/-! ## C3 — approval mode on terminal stop reasons -/

/-- C3 counterexample: in approval mode a first response with
`stop_reason = "max_tokens"` (a non-`tool_use`, non-`end_turn`/`stop` value)
does *not* finalize the run at all: no event is published and the run row
stays `running` instead of becoming `completed`. -/
theorem c3_counterexample_max_tokens_falls_through :
    (runToolLoopApproval Fixtures.envMaxTokens Fixtures.ctxA
        [⟨ROLE_USER, .text "hi"⟩] Fixtures.dbRun).events = [] ∧
    (getRun (runToolLoopApproval Fixtures.envMaxTokens Fixtures.ctxA
        [⟨ROLE_USER, .text "hi"⟩] Fixtures.dbRun).db ⟨100⟩).map
      (fun r => r.status) = some STATUS_RUNNING ∧
    STATUS_RUNNING ≠ STATUS_COMPLETED :=
  ⟨rfl, rfl, by decide⟩

/-- C3 (amended): in approval mode, a successful first model call finalizes
the run `completed` immediately — with `final_output` set to the response
text and an `OrchestratorCompleted` event — only when the stop reason is
`end_turn`, `stop`, or missing; other non-`tool_use` stop reasons (e.g.
`max_tokens`) make the function return without finalizing anything. -/
theorem c3_approval_terminal_completion :
    ∀ (env : Env) (ctx : OrchestrationContext) (messages : List LlmMessage) (db : Db)
      (complete : LlmRequest → Except AppError LlmResponse) (resp : LlmResponse),
      env.registry ctx.providerName = some complete →
      complete (mkLoopRequest ctx messages) = .ok resp →
      (resp.stopReason = none ∨ resp.stopReason = some STOP_END_TURN ∨
        resp.stopReason = some STOP_STOP) →
      db.available = true →
      (runToolLoopApproval env ctx messages db).events =
        [.orchestratorCompleted ctx.orchestrationRunId ctx.orchestratorAgentId
          resp.content] ∧
      (runToolLoopApproval env ctx messages db).modelCalls = 1 ∧
      getRun (runToolLoopApproval env ctx messages db).db ctx.orchestrationRunId =
        (getRun db ctx.orchestrationRunId).map
          (fun r => { r with
            status := STATUS_COMPLETED, finalOutput := some resp.content }) := by
  intro env ctx messages db complete resp hreg hcomp hstop hav
  have hterm : (resp.stopReason.getD STOP_END_TURN == STOP_END_TURN ||
      resp.stopReason.getD STOP_END_TURN == STOP_STOP) = true := by
    rcases hstop with h | h | h <;> rw [h] <;> rfl
  have hres : runToolLoopApproval env ctx messages db =
      ⟨finalizeOrchestration db ctx.orchestrationRunId ctx.executionId
          STATUS_COMPLETED (some resp.content) none,
        [.orchestratorCompleted ctx.orchestrationRunId ctx.orchestratorAgentId
          resp.content],
        1, messages⟩ := by
    unfold runToolLoopApproval
    simp only [hreg]
    simp only [hcomp]
    simp only [hterm, if_true]
  rw [hres]
  exact ⟨rfl, rfl,
    getRun_finalize db ctx.orchestrationRunId ctx.executionId STATUS_COMPLETED
      (some resp.content) none hav⟩

/-- C3 witness: an `end_turn` first response in approval mode completes the
run with output "hello". -/
theorem c3_approval_terminal_completion_witness :
    (Fixtures.envEndTurn.registry Fixtures.ctxA.providerName).isSome = true ∧
    Fixtures.dbRun.available = true ∧
    ((runToolLoopApproval Fixtures.envEndTurn Fixtures.ctxA
        [⟨ROLE_USER, .text "hi"⟩] Fixtures.dbRun).events =
      [.orchestratorCompleted Fixtures.ctxA.orchestrationRunId
        Fixtures.ctxA.orchestratorAgentId "hello"] ∧
    (runToolLoopApproval Fixtures.envEndTurn Fixtures.ctxA
        [⟨ROLE_USER, .text "hi"⟩] Fixtures.dbRun).modelCalls = 1 ∧
    getRun (runToolLoopApproval Fixtures.envEndTurn Fixtures.ctxA
        [⟨ROLE_USER, .text "hi"⟩] Fixtures.dbRun).db
        Fixtures.ctxA.orchestrationRunId =
      (getRun Fixtures.dbRun Fixtures.ctxA.orchestrationRunId).map
        (fun r => { r with
          status := STATUS_COMPLETED, finalOutput := some "hello" })) :=
  ⟨rfl, rfl,
    c3_approval_terminal_completion Fixtures.envEndTurn Fixtures.ctxA
      [⟨ROLE_USER, .text "hi"⟩] Fixtures.dbRun
      (fun _ => .ok { content := "hello", contentBlocks := [.text "hello"],
                      stopReason := some "end_turn" })
      { content := "hello", contentBlocks := [.text "hello"],
        stopReason := some "end_turn" }
      rfl rfl (Or.inr (Or.inl rfl)) rfl⟩

/-! ## C4 — approval mode suspends with plan and conversation -/

/-- C4: in approval mode, a first response with `stop_reason = tool_use`
updates the run row to `awaiting_approval` together with `plan_json` (the
steps built from the `tool_use` blocks plus the assistant text) and
`messages_json` (the conversation including the new assistant message) in
the same update; a `PlanProposed` event is the only event; exactly one model
call is made; no other table changes (no tool executed); and any run row
read back in that state has non-null `plan_json` and `messages_json`. -/
theorem c4_approval_suspends_with_plan :
    ∀ (env : Env) (ctx : OrchestrationContext) (messages : List LlmMessage) (db : Db)
      (complete : LlmRequest → Except AppError LlmResponse) (resp : LlmResponse),
      env.registry ctx.providerName = some complete →
      complete (mkLoopRequest ctx messages) = .ok resp →
      resp.stopReason = some STOP_TOOL_USE →
      db.available = true →
      getRun (runToolLoopApproval env ctx messages db).db ctx.orchestrationRunId =
        (getRun db ctx.orchestrationRunId).map (fun row => { row with
          status := STATUS_AWAITING_APPROVAL,
          planJson := some (planOfResponse resp),
          messagesJson := some (messagesToJson (messages ++
            [⟨ROLE_ASSISTANT, .blocks resp.contentBlocks⟩])) }) ∧
      (runToolLoopApproval env ctx messages db).events =
        [.orchestratorPlanProposed ctx.orchestrationRunId ctx.orchestratorAgentId
          (planOfResponse resp)] ∧
      (runToolLoopApproval env ctx messages db).modelCalls = 1 ∧
      (runToolLoopApproval env ctx messages db).db.agents = db.agents ∧
      (runToolLoopApproval env ctx messages db).db.agentExecutions = db.agentExecutions ∧
      (runToolLoopApproval env ctx messages db).db.workflowRuns = db.workflowRuns ∧
      (runToolLoopApproval env ctx messages db).db.agentMessages = db.agentMessages ∧
      (∀ row, getRun (runToolLoopApproval env ctx messages db).db
          ctx.orchestrationRunId = some row →
        row.status = STATUS_AWAITING_APPROVAL ∧ row.planJson ≠ none ∧
          row.messagesJson ≠ none) := by
  intro env ctx messages db complete resp hreg hcomp hstop hav
  have hcond1 : (resp.stopReason.getD STOP_END_TURN == STOP_END_TURN ||
      resp.stopReason.getD STOP_END_TURN == STOP_STOP) = false := by
    rw [hstop]
    rfl
  have hcond2 : (resp.stopReason.getD STOP_END_TURN == STOP_TOOL_USE) = true := by
    rw [hstop]
    rfl
  have hres : runToolLoopApproval env ctx messages db =
      ⟨{ db with
          orchestrationRuns := updateWhere (fun r => r.id == ctx.orchestrationRunId)
            (fun r => { r with
              status := STATUS_AWAITING_APPROVAL,
              planJson := some (planOfResponse resp),
              messagesJson := some (messagesToJson (messages ++
                [⟨ROLE_ASSISTANT, .blocks resp.contentBlocks⟩])) })
            db.orchestrationRuns },
        [.orchestratorPlanProposed ctx.orchestrationRunId ctx.orchestratorAgentId
          (planOfResponse resp)],
        1, messages ++ [⟨ROLE_ASSISTANT, .blocks resp.contentBlocks⟩]⟩ := by
    unfold runToolLoopApproval
    simp only [hreg]
    simp only [hcomp]
    simp only [hcond1, Bool.false_eq_true, if_false, hcond2, if_true]
    simp only [hav, Bool.not_true, Bool.false_eq_true, if_false]
  rw [hres]
  have hfind : (getRun { db with
      orchestrationRuns := updateWhere (fun r => r.id == ctx.orchestrationRunId)
        (fun r => { r with
          status := STATUS_AWAITING_APPROVAL,
          planJson := some (planOfResponse resp),
          messagesJson := some (messagesToJson (messages ++
            [⟨ROLE_ASSISTANT, .blocks resp.contentBlocks⟩])) })
        db.orchestrationRuns } ctx.orchestrationRunId) =
      (getRun db ctx.orchestrationRunId).map (fun row => { row with
        status := STATUS_AWAITING_APPROVAL,
        planJson := some (planOfResponse resp),
        messagesJson := some (messagesToJson (messages ++
          [⟨ROLE_ASSISTANT, .blocks resp.contentBlocks⟩])) }) := by
    unfold getRun findRow
    apply updateWhere_find?_self
    intro x
    rfl
  refine ⟨hfind, rfl, rfl, rfl, rfl, rfl, rfl, ?_⟩
  intro row hrow
  rw [hfind] at hrow
  cases hbase : getRun db ctx.orchestrationRunId with
  | none => rw [hbase] at hrow; simp at hrow
  | some orig =>
      rw [hbase] at hrow
      simp only [Option.map_some'] at hrow
      have hrow2 := Option.some.inj hrow
      subst hrow2
      exact ⟨rfl, by simp, by simp⟩

/-- C4 witness: a two-tool first response in approval mode suspends the run
with plan and messages saved and only `PlanProposed` published. -/
theorem c4_approval_suspends_with_plan_witness :
    (Fixtures.envTwoTools.registry Fixtures.ctxA.providerName).isSome = true ∧
    Fixtures.dbRun.available = true ∧
    ((runToolLoopApproval Fixtures.envTwoTools Fixtures.ctxA
        [⟨ROLE_USER, .text "hi"⟩] Fixtures.dbRun).events =
      [.orchestratorPlanProposed Fixtures.ctxA.orchestrationRunId
        Fixtures.ctxA.orchestratorAgentId
        (planOfResponse
          { content := "plan",
            contentBlocks :=
              [.text "plan",
               .toolUse "t1" TOOL_CREATE_SUB_AGENT (.obj [("name", .str "R")]),
               .toolUse "t2" TOOL_GET_SUB_AGENT_RESULT (.obj [])],
            stopReason := some "tool_use" })] ∧
    (∀ row, getRun (runToolLoopApproval Fixtures.envTwoTools Fixtures.ctxA
        [⟨ROLE_USER, .text "hi"⟩] Fixtures.dbRun).db
        Fixtures.ctxA.orchestrationRunId = some row →
      row.status = STATUS_AWAITING_APPROVAL ∧ row.planJson ≠ none ∧
        row.messagesJson ≠ none)) := by
  have h := c4_approval_suspends_with_plan Fixtures.envTwoTools Fixtures.ctxA
    [⟨ROLE_USER, .text "hi"⟩] Fixtures.dbRun
    (fun _ =>
      .ok { content := "plan",
            contentBlocks :=
              [.text "plan",
               .toolUse "t1" TOOL_CREATE_SUB_AGENT (.obj [("name", .str "R")]),
               .toolUse "t2" TOOL_GET_SUB_AGENT_RESULT (.obj [])],
            stopReason := some "tool_use" })
    { content := "plan",
      contentBlocks :=
        [.text "plan",
         .toolUse "t1" TOOL_CREATE_SUB_AGENT (.obj [("name", .str "R")]),
         .toolUse "t2" TOOL_GET_SUB_AGENT_RESULT (.obj [])],
      stopReason := some "tool_use" }
    rfl rfl rfl rfl
  exact ⟨rfl, rfl, h.2.1, h.2.2.2.2.2.2.2⟩

/-! ## C2 — tool_use / tool_result pairing -/

theorem processToolCalls_results (env : Env) (ctx : OrchestrationContext) :
    ∀ (blocks : List ContentBlock) (db : Db),
      (∀ b ∈ (processToolCalls env ctx blocks db).1, b.isToolResult = true) ∧
      toolResultIds (processToolCalls env ctx blocks db).1 = toolUseIds blocks ∧
      (processToolCalls env ctx blocks db).1.length = (toolUseIds blocks).length := by
  intro blocks
  induction blocks with
  | nil =>
      intro db
      refine ⟨?_, rfl, rfl⟩
      intro b hb
      simp [processToolCalls] at hb
  | cons b rest ih =>
      intro db
      cases b with
      | toolUse id name input =>
          rcases hcall : handleToolCall env ctx db name input with ⟨⟨content, isError⟩, db2, evs⟩
          rcases hrest : processToolCalls env ctx rest db2 with ⟨results, db3, evs2⟩
          obtain ⟨ih1, ih2, ih3⟩ := ih db2
          rw [hrest] at ih1 ih2 ih3
          have hred : processToolCalls env ctx (ContentBlock.toolUse id name input :: rest) db =
              (ContentBlock.toolResult id content isError :: results, db3, evs ++ evs2) := by
            simp only [processToolCalls, hcall, hrest]
          have eres : toolResultIds (ContentBlock.toolResult id content isError :: results) =
              id :: toolResultIds results := rfl
          have euse : toolUseIds (ContentBlock.toolUse id name input :: rest) =
              id :: toolUseIds rest := rfl
          rw [hred]
          refine ⟨?_, ?_, ?_⟩
          · intro x hx
            rcases List.mem_cons.mp hx with h | h
            · rw [h]; rfl
            · exact ih1 x h
          · rw [eres, euse, ih2]
          · rw [euse]
            simp [ih3]
      | text t =>
          have hred : processToolCalls env ctx (ContentBlock.text t :: rest) db =
              processToolCalls env ctx rest db := by
            simp only [processToolCalls]
          have hids : toolUseIds (ContentBlock.text t :: rest) = toolUseIds rest := rfl
          rw [hred, hids]
          exact ih db
      | toolResult tid c e =>
          have hred : processToolCalls env ctx (ContentBlock.toolResult tid c e :: rest) db =
              processToolCalls env ctx rest db := by
            simp only [processToolCalls]
          have hids : toolUseIds (ContentBlock.toolResult tid c e :: rest) =
              toolUseIds rest := rfl
          rw [hred, hids]
          exact ih db

theorem toolUseIds_filter (blocks : List ContentBlock) :
    toolUseIds (blocks.filter ContentBlock.isToolUse) = toolUseIds blocks := by
  induction blocks with
  | nil => rfl
  | cons b rest ih =>
      cases b <;> simp [toolUseIds, List.filter, ContentBlock.isToolUse, List.filterMap] at * <;>
        exact ih

theorem matchedTurn_processToolCalls (env : Env) (ctx : OrchestrationContext)
    (blocks : List ContentBlock) (db : Db) :
    matchedTurn blocks
      (processToolCalls env ctx (blocks.filter ContentBlock.isToolUse) db).1 := by
  obtain ⟨h1, h2, h3⟩ := processToolCalls_results env ctx
    (blocks.filter ContentBlock.isToolUse) db
  refine ⟨h1, ?_, ?_⟩
  · rw [h3, toolUseIds_filter]
  · rw [h2, toolUseIds_filter]

theorem runToolLoopAux_conversation (env : Env) (ctx : OrchestrationContext)
    (complete : LlmRequest → Except AppError LlmResponse) :
    ∀ (fuel : Nat) (messages : List LlmMessage) (db : Db)
      (events : List ExecutionEvent) (calls : Nat),
      ∃ ext, (runToolLoopAux env ctx complete fuel messages db events calls).conversation =
        messages ++ ext ∧ MatchedTurns ext := by
  intro fuel
  induction fuel with
  | zero =>
      intro messages db events calls
      exact ⟨[], by simp [runToolLoopAux], .nil⟩
  | succ fuel ih =>
      intro messages db events calls
      cases hc : complete (mkLoopRequest ctx messages) with
      | error e =>
          refine ⟨[], ?_, .nil⟩
          simp only [runToolLoopAux, hc]
          simp
      | ok resp =>
          by_cases h1 : (resp.stopReason.getD STOP_END_TURN == STOP_END_TURN ||
              resp.stopReason.getD STOP_END_TURN == STOP_STOP) = true
          · refine ⟨[], ?_, .nil⟩
            simp only [runToolLoopAux, hc, h1, if_true]
            simp
          · by_cases h2 : (resp.stopReason.getD STOP_END_TURN == STOP_TOOL_USE) = true
            · rcases hp : processToolCalls env ctx
                  (resp.contentBlocks.filter ContentBlock.isToolUse) db with
                ⟨results, db2, evs⟩
              obtain ⟨ext, hconv, hmt⟩ := ih
                ((messages ++ [⟨ROLE_ASSISTANT, .blocks resp.contentBlocks⟩]) ++
                  [⟨ROLE_USER, .blocks results⟩]) db2 (events ++ evs) (calls + 1)
              refine ⟨⟨ROLE_ASSISTANT, .blocks resp.contentBlocks⟩ ::
                ⟨ROLE_USER, .blocks results⟩ :: ext, ?_, ?_⟩
              · simp only [runToolLoopAux, hc, h1, h2, if_true, if_false,
                  Bool.false_eq_true, hp]
                rw [hconv]
                simp
              · refine MatchedTurns.pair _ _ _ ?_ hmt
                have := matchedTurn_processToolCalls env ctx resp.contentBlocks db
                rw [hp] at this
                exact this
            · refine ⟨[], ?_, .nil⟩
              simp only [runToolLoopAux, hc, h1, h2, Bool.false_eq_true, if_false]
              simp

/-- C2: the automatic loop only ever extends its conversation with
assistant/user pairs in which the user message contains exactly one
`tool_result` per `tool_use` block of the preceding assistant message, with
identical `tool_use_id`s in identical order (and nothing but tool results). -/
theorem c2_tool_result_pairing :
    ∀ (env : Env) (ctx : OrchestrationContext) (messages : List LlmMessage) (db : Db),
      ∃ ext, (runToolLoop env ctx messages db).conversation = messages ++ ext ∧
        MatchedTurns ext := by
  intro env ctx messages db
  unfold runToolLoop
  cases hr : env.registry ctx.providerName with
  | none => exact ⟨[], by simp, .nil⟩
  | some complete =>
      have h := runToolLoopAux_conversation env ctx complete
        MAX_TOOL_LOOP_ITERATIONS messages db [] 0
      simpa using h

/-! ## C1 — the 20-iteration cap -/

theorem runToolLoopAux_calls_le (env : Env) (ctx : OrchestrationContext)
    (complete : LlmRequest → Except AppError LlmResponse) :
    ∀ (fuel : Nat) (messages : List LlmMessage) (db : Db)
      (events : List ExecutionEvent) (calls : Nat),
      (runToolLoopAux env ctx complete fuel messages db events calls).modelCalls ≤
        calls + fuel := by
  intro fuel
  induction fuel with
  | zero =>
      intro messages db events calls
      simp [runToolLoopAux]
  | succ fuel ih =>
      intro messages db events calls
      cases hc : complete (mkLoopRequest ctx messages) with
      | error e =>
          simp only [runToolLoopAux, hc]
          omega
      | ok resp =>
          by_cases h1 : (resp.stopReason.getD STOP_END_TURN == STOP_END_TURN ||
              resp.stopReason.getD STOP_END_TURN == STOP_STOP) = true
          · simp only [runToolLoopAux, hc, h1, if_true]
            omega
          · by_cases h2 : (resp.stopReason.getD STOP_END_TURN == STOP_TOOL_USE) = true
            · rcases hp : processToolCalls env ctx
                  (resp.contentBlocks.filter ContentBlock.isToolUse) db with
                ⟨results, db2, evs⟩
              have := ih (messages ++ [⟨ROLE_ASSISTANT, .blocks resp.contentBlocks⟩] ++
                [⟨ROLE_USER, .blocks results⟩]) db2 (events ++ evs) (calls + 1)
              simp only [runToolLoopAux, hc, h1, h2, if_true, if_false,
                Bool.false_eq_true, hp]
              omega
            · simp only [runToolLoopAux, hc, h1, h2, Bool.false_eq_true, if_false]
              omega

theorem find?_isSome_update_append {α} (q p : α → Bool) (f : α → α)
    (hq : ∀ x, q (f x) = q x) (l rows : List α) :
    (l.find? q).isSome = true →
    ((updateWhere p f (l ++ rows)).find? q).isSome = true := by
  intro h
  rw [updateWhere_find?_isSome p q f hq]
  exact find?_append_isSome q l rows h

theorem executeAgent_preserves (env : Env) (db : Db) (req : ExecuteAgentRequest) :
    (executeAgent env db req).2.1.available = db.available ∧
    (executeAgent env db req).2.1.orchestrationRuns = db.orchestrationRuns ∧
    ∀ i, (getExec db i).isSome = true →
      (getExec (executeAgent env db req).2.1 i).isSome = true := by
  unfold executeAgent
  split
  · exact ⟨rfl, rfl, fun i h => h⟩
  · split
    · exact ⟨rfl, rfl, fun i h => h⟩
    · split
      · exact ⟨rfl, rfl, fun i h => h⟩
      · split
        · exact ⟨rfl, rfl, fun i h => h⟩
        · simp only [Db.freshId]
          split
          · refine ⟨rfl, rfl, ?_⟩
            intro i h
            unfold getExec findRow at h ⊢
            exact find?_append_isSome _ _ _ h
          · split
            · refine ⟨rfl, rfl, ?_⟩
              intro i h
              unfold getExec findRow at h ⊢
              refine find?_isSome_update_append _ _ _ (fun x => ?_) _ _ h
              rfl
            · refine ⟨rfl, rfl, ?_⟩
              intro i h
              unfold getExec findRow at h ⊢
              refine find?_isSome_update_append _ _ _ (fun x => ?_) _ _ h
              rfl

theorem handleToolCall_preserves (env : Env) (ctx : OrchestrationContext) (db : Db)
    (name : String) (input : Json) :
    (handleToolCall env ctx db name input).2.1.available = db.available ∧
    (handleToolCall env ctx db name input).2.1.orchestrationRuns = db.orchestrationRuns ∧
    ∀ i, (getExec db i).isSome = true →
      (getExec (handleToolCall env ctx db name input).2.1 i).isSome = true := by
  unfold handleToolCall
  split
  · -- create_sub_agent branch
    split
    · exact ⟨rfl, rfl, fun i h => h⟩
    · simp only [Db.freshId]
      exact ⟨trivial, trivial, fun i h => h⟩
  · split
    · -- execute_sub_agent branch
      cases hu : env.parseUuid ((input.index "agent_id").asStr.getD "") with
      | none =>
          simp only [hu]
          exact ⟨trivial, trivial, fun i h => h⟩
      | some agentId =>
          simp only [hu]
          rcases he : executeAgent env db
              { agentId := agentId, input := (input.index "input").asStr.getD "" } with
            ⟨res, db2, evs⟩
          obtain ⟨p1, p2, p3⟩ := executeAgent_preserves env db
            { agentId := agentId, input := (input.index "input").asStr.getD "" }
          rw [he] at p1 p2 p3
          cases res with
          | ok execution =>
              simp only [he]
              exact ⟨p1, p2, p3⟩
          | error e =>
              simp only [he]
              exact ⟨p1, p2, p3⟩
    · split
      · -- get_sub_agent_result branch
        cases hu : env.parseUuid ((input.index "execution_id").asStr.getD "") with
        | none =>
            simp only [hu]
            exact ⟨trivial, trivial, fun i h => h⟩
        | some executionId =>
            simp only [hu]
            cases hge : getExecution db executionId with
            | ok execution =>
                simp only [hge]
                exact ⟨trivial, trivial, fun i h => h⟩
            | error e =>
                simp only [hge]
                exact ⟨trivial, trivial, fun i h => h⟩
      · exact ⟨rfl, rfl, fun i h => h⟩

theorem processToolCalls_preserves (env : Env) (ctx : OrchestrationContext) :
    ∀ (blocks : List ContentBlock) (db : Db),
      (processToolCalls env ctx blocks db).2.1.available = db.available ∧
      (processToolCalls env ctx blocks db).2.1.orchestrationRuns = db.orchestrationRuns ∧
      ∀ i, (getExec db i).isSome = true →
        (getExec (processToolCalls env ctx blocks db).2.1 i).isSome = true := by
  intro blocks
  induction blocks with
  | nil => exact fun db => ⟨rfl, rfl, fun i h => h⟩
  | cons b rest ih =>
      intro db
      cases b with
      | toolUse id name input =>
          rcases hcall : handleToolCall env ctx db name input with ⟨⟨content, isError⟩, db2, evs⟩
          rcases hrest : processToolCalls env ctx rest db2 with ⟨results, db3, evs2⟩
          have hred : processToolCalls env ctx (ContentBlock.toolUse id name input :: rest) db =
              (ContentBlock.toolResult id content isError :: results, db3, evs ++ evs2) := by
            simp only [processToolCalls, hcall, hrest]
          obtain ⟨hav1, hrun1, hex1⟩ := handleToolCall_preserves env ctx db name input
          rw [hcall] at hav1 hrun1 hex1
          obtain ⟨hav2, hrun2, hex2⟩ := ih db2
          rw [hrest] at hav2 hrun2 hex2
          rw [hred]
          exact ⟨by rw [hav2, hav1], by rw [hrun2, hrun1],
            fun i h => hex2 i (hex1 i h)⟩
      | text t =>
          have hred : processToolCalls env ctx (ContentBlock.text t :: rest) db =
              processToolCalls env ctx rest db := by
            simp only [processToolCalls]
          rw [hred]
          exact ih db
      | toolResult tid c e =>
          have hred : processToolCalls env ctx (ContentBlock.toolResult tid c e :: rest) db =
              processToolCalls env ctx rest db := by
            simp only [processToolCalls]
          rw [hred]
          exact ih db

theorem runToolLoopAux_runaway (env : Env) (ctx : OrchestrationContext)
    (complete : LlmRequest → Except AppError LlmResponse)
    (htu : alwaysToolUse complete) :
    ∀ (fuel : Nat) (messages : List LlmMessage) (db : Db)
      (events : List ExecutionEvent) (calls : Nat),
      db.available = true →
      (getRun db ctx.orchestrationRunId).isSome = true →
      (getExec db ctx.executionId).isSome = true →
      (runToolLoopAux env ctx complete fuel messages db events calls).modelCalls =
        calls + fuel ∧
      ExecutionEvent.orchestratorFailed ctx.orchestrationRunId ctx.orchestratorAgentId
        maxIterationsError ∈
        (runToolLoopAux env ctx complete fuel messages db events calls).events ∧
      (∃ r, getRun (runToolLoopAux env ctx complete fuel messages db events calls).db
          ctx.orchestrationRunId = some r ∧
        r.status = STATUS_FAILED ∧ r.finalOutput = none) ∧
      (∃ e, getExec (runToolLoopAux env ctx complete fuel messages db events calls).db
          ctx.executionId = some e ∧
        e.status = STATUS_FAILED ∧ e.errorMessage = some maxIterationsError) := by
  intro fuel
  induction fuel with
  | zero =>
      intro messages db events calls hav hrun hexec
      refine ⟨rfl, ?_, ?_, ?_⟩
      · simp [runToolLoopAux]
      · have h := getRun_finalize db ctx.orchestrationRunId ctx.executionId
          STATUS_FAILED none (some maxIterationsError) hav
        cases hbase : getRun db ctx.orchestrationRunId with
        | none => rw [hbase] at hrun; simp at hrun
        | some r0 =>
            rw [hbase] at h
            exact ⟨_, h, rfl, rfl⟩
      · have h := getExec_finalize db ctx.orchestrationRunId ctx.executionId
          STATUS_FAILED none (some maxIterationsError) hav STATUS_FAILED rfl
        cases hbase : getExec db ctx.executionId with
        | none => rw [hbase] at hexec; simp at hexec
        | some e0 =>
            rw [hbase] at h
            exact ⟨_, h, rfl, rfl⟩
  | succ fuel ih =>
      intro messages db events calls hav hrun hexec
      obtain ⟨resp, hcomp, hstop⟩ := htu (mkLoopRequest ctx messages)
      have hcond1 : (resp.stopReason.getD STOP_END_TURN == STOP_END_TURN ||
          resp.stopReason.getD STOP_END_TURN == STOP_STOP) = false := by
        rw [hstop]; rfl
      have hcond2 : (resp.stopReason.getD STOP_END_TURN == STOP_TOOL_USE) = true := by
        rw [hstop]; rfl
      rcases hp : processToolCalls env ctx
          (resp.contentBlocks.filter ContentBlock.isToolUse) db with
        ⟨results, db2, evs⟩
      obtain ⟨hav2, hrun2, hex2⟩ := processToolCalls_preserves env ctx
        (resp.contentBlocks.filter ContentBlock.isToolUse) db
      rw [hp] at hav2 hrun2 hex2
      have hrunEq : getRun db2 ctx.orchestrationRunId = getRun db ctx.orchestrationRunId := by
        unfold getRun findRow
        rw [hrun2]
      obtain ⟨ih1, ih2, ih3, ih4⟩ := ih
        (messages ++ [⟨ROLE_ASSISTANT, .blocks resp.contentBlocks⟩] ++
          [⟨ROLE_USER, .blocks results⟩]) db2 (events ++ evs) (calls + 1)
        (by rw [hav2, hav]) (by rw [hrunEq]; exact hrun) (hex2 _ hexec)
      have hred : runToolLoopAux env ctx complete (fuel + 1) messages db events calls =
          runToolLoopAux env ctx complete fuel
            (messages ++ [⟨ROLE_ASSISTANT, .blocks resp.contentBlocks⟩] ++
              [⟨ROLE_USER, .blocks results⟩]) db2 (events ++ evs) (calls + 1) := by
        simp only [runToolLoopAux, hcomp, hcond1, hcond2, if_true, if_false,
          Bool.false_eq_true, hp]
      rw [hred]
      exact ⟨by omega, ih2, ih3, ih4⟩

/-- C1: the automatic tool loop calls the provider at most 20 times; and
when the provider keeps answering `tool_use` (so a 21st iteration is
reached), the loop makes exactly 20 model calls and then finalizes the run
`failed` — the run row gets status `failed`, the execution row gets the
iteration-cap error message (which contains "maximum iterations"), and an
`OrchestratorFailed` event is published — so the loop always terminates. -/
theorem c1_iteration_cap :
    ∀ (env : Env) (ctx : OrchestrationContext) (messages : List LlmMessage) (db : Db),
      (runToolLoop env ctx messages db).modelCalls ≤ MAX_TOOL_LOOP_ITERATIONS ∧
      (∀ complete, env.registry ctx.providerName = some complete →
        alwaysToolUse complete →
        db.available = true →
        (getRun db ctx.orchestrationRunId).isSome = true →
        (getExec db ctx.executionId).isSome = true →
        (runToolLoop env ctx messages db).modelCalls = MAX_TOOL_LOOP_ITERATIONS ∧
        ExecutionEvent.orchestratorFailed ctx.orchestrationRunId
          ctx.orchestratorAgentId maxIterationsError ∈
          (runToolLoop env ctx messages db).events ∧
        (∃ r, getRun (runToolLoop env ctx messages db).db ctx.orchestrationRunId =
            some r ∧ r.status = STATUS_FAILED) ∧
        (∃ e, getExec (runToolLoop env ctx messages db).db ctx.executionId = some e ∧
          e.status = STATUS_FAILED ∧ e.errorMessage = some maxIterationsError) ∧
        (∃ p q, maxIterationsError = p ++ "maximum iterations" ++ q)) := by
  intro env ctx messages db
  constructor
  · unfold runToolLoop
    cases hr : env.registry ctx.providerName with
    | none => simp
    | some complete =>
        have h := runToolLoopAux_calls_le env ctx complete
          MAX_TOOL_LOOP_ITERATIONS messages db [] 0
        simpa using h
  · intro complete hreg htu hav hrun hexec
    have hloop : runToolLoop env ctx messages db =
        runToolLoopAux env ctx complete MAX_TOOL_LOOP_ITERATIONS messages db [] 0 := by
      unfold runToolLoop
      simp only [hreg]
    obtain ⟨h1, h2, h3, h4⟩ := runToolLoopAux_runaway env ctx complete htu
      MAX_TOOL_LOOP_ITERATIONS messages db [] 0 hav hrun hexec
    rw [hloop]
    refine ⟨by simpa using h1, h2, ?_, ?_, ?_⟩
    · obtain ⟨r, hr, hs, _⟩ := h3
      exact ⟨r, hr, hs⟩
    · exact h4
    · exact ⟨"Tool loop exceeded ",
        " (" ++ toString MAX_TOOL_LOOP_ITERATIONS ++
          "). Stopping to prevent runaway execution.", by decide⟩

/-- C1 witness: a provider that always answers `tool_use` drives the loop to
exactly 20 model calls and a failed, cap-reported run. -/
theorem c1_iteration_cap_witness :
    (Fixtures.envAlwaysTool.registry Fixtures.ctxA.providerName =
      some (fun _ =>
        .ok { content := "", contentBlocks := [], stopReason := some "tool_use" }) ∧
      Fixtures.dbRun.available = true ∧
      (getRun Fixtures.dbRun Fixtures.ctxA.orchestrationRunId).isSome = true ∧
      (getExec Fixtures.dbRun Fixtures.ctxA.executionId).isSome = true) ∧
    ((runToolLoop Fixtures.envAlwaysTool Fixtures.ctxA [⟨ROLE_USER, .text "hi"⟩]
        Fixtures.dbRun).modelCalls = MAX_TOOL_LOOP_ITERATIONS ∧
      ExecutionEvent.orchestratorFailed Fixtures.ctxA.orchestrationRunId
        Fixtures.ctxA.orchestratorAgentId maxIterationsError ∈
        (runToolLoop Fixtures.envAlwaysTool Fixtures.ctxA [⟨ROLE_USER, .text "hi"⟩]
          Fixtures.dbRun).events ∧
      (∃ r, getRun (runToolLoop Fixtures.envAlwaysTool Fixtures.ctxA
          [⟨ROLE_USER, .text "hi"⟩] Fixtures.dbRun).db
          Fixtures.ctxA.orchestrationRunId = some r ∧ r.status = STATUS_FAILED) ∧
      (∃ e, getExec (runToolLoop Fixtures.envAlwaysTool Fixtures.ctxA
          [⟨ROLE_USER, .text "hi"⟩] Fixtures.dbRun).db
          Fixtures.ctxA.executionId = some e ∧ e.status = STATUS_FAILED ∧
          e.errorMessage = some maxIterationsError) ∧
      (∃ p q, maxIterationsError = p ++ "maximum iterations" ++ q)) :=
  ⟨⟨rfl, rfl, rfl, rfl⟩,
    (c1_iteration_cap Fixtures.envAlwaysTool Fixtures.ctxA [⟨ROLE_USER, .text "hi"⟩]
        Fixtures.dbRun).2
      (fun _ => .ok { content := "", contentBlocks := [], stopReason := some "tool_use" })
      rfl (fun _ => ⟨_, rfl, rfl⟩) rfl rfl rfl⟩

/-! ## C8 — rejecting a pending plan -/

theorem getWf_finalize (db : Db) (rid eid : Uuid) (st : String) (fo em : Option String)
    (hav : db.available = true) (es : String)
    (hes : (if st == STATUS_COMPLETED then some STATUS_COMPLETED
      else if st == STATUS_FAILED || st == STATUS_REJECTED then some STATUS_FAILED
      else none) = some es)
    (run : OrchestrationRun) (hrun : getRun db rid = some run) (w : WorkflowRun)
    (hw : getWf db run.workflowRunId = some w) :
    getWf (finalizeOrchestration db rid eid st fo em) run.workflowRunId =
      some (if w.status == STATUS_RUNNING
        then { w with
          status := if st == STATUS_COMPLETED then STATUS_COMPLETED else STATUS_FAILED,
          errorMessage := em }
        else w) := by
  unfold getWf findRow at hw ⊢
  rw [finalize_workflowRuns db rid eid st fo em hav es hes]
  rw [updateWhere_find?
    (fun x => some x.id == (getRun db rid).map (fun r => r.workflowRunId) &&
      x.status == STATUS_RUNNING)
    (fun x => x.id == run.workflowRunId)
    (fun x => { x with
      status := if st == STATUS_COMPLETED then STATUS_COMPLETED else STATUS_FAILED,
      errorMessage := em })
    (fun x => rfl) db.workflowRuns]
  rw [hw]
  have hid : (w.id == run.workflowRunId) = true := by
    have h2 := List.find?_some hw
    exact h2
  have hp : (some w.id == (getRun db rid).map (fun r => r.workflowRunId) &&
      w.status == STATUS_RUNNING) = (w.status == STATUS_RUNNING) := by
    rw [hrun]
    have hsome : (some w.id == some run.workflowRunId) = true := hid
    rw [Option.map_some']
    simp [hsome]
  rw [Option.map_some', hp]

/-- C8: `reject_orchestration` on a run awaiting approval sets the run
`rejected`, fails the linked execution with "Plan rejected by user", fails
the workflow run exactly when it is still `running` (otherwise leaves it
unchanged), publishes exactly one `PlanRejected` event, and returns the
updated row; on a run in any other status it returns an `invalid_input`
error and changes nothing. -/
theorem c8_reject_orchestration :
    ∀ (db : Db) (rid : Uuid) (orchRun : OrchestrationRun),
      db.available = true →
      getRun db rid = some orchRun →
      (orchRun.status = STATUS_AWAITING_APPROVAL →
        (rejectOrchestration db rid).1 =
          .ok { orchRun with status := STATUS_REJECTED, finalOutput := none } ∧
        getRun (rejectOrchestration db rid).2.1 rid =
          some { orchRun with status := STATUS_REJECTED, finalOutput := none } ∧
        getExec (rejectOrchestration db rid).2.1 orchRun.executionId =
          (getExec db orchRun.executionId).map (fun e => { e with
            status := STATUS_FAILED, outputText := none,
            errorMessage := some "Plan rejected by user" }) ∧
        (∀ w, getWf db orchRun.workflowRunId = some w →
          getWf (rejectOrchestration db rid).2.1 orchRun.workflowRunId =
            some (if w.status == STATUS_RUNNING
              then { w with
                status := STATUS_FAILED,
                errorMessage := some "Plan rejected by user" }
              else w)) ∧
        (rejectOrchestration db rid).2.2 =
          [.orchestratorPlanRejected rid orchRun.orchestratorAgentId]) ∧
      (orchRun.status ≠ STATUS_AWAITING_APPROVAL →
        (∃ m, (rejectOrchestration db rid).1 = .error (.invalidInput m)) ∧
        (rejectOrchestration db rid).2.1 = db ∧
        (rejectOrchestration db rid).2.2 = []) := by
  intro db rid orchRun hav horch
  have horch' : findRow (fun r => r.id == rid) db.orchestrationRuns = some orchRun := horch
  constructor
  · intro hst
    have hne : (orchRun.status != STATUS_AWAITING_APPROVAL) = false := by
      rw [hst]
      rfl
    have hre : findRow (fun r => r.id == rid)
        (finalizeOrchestration db rid orchRun.executionId STATUS_REJECTED none
          (some "Plan rejected by user")).orchestrationRuns =
        some { orchRun with status := STATUS_REJECTED, finalOutput := none } := by
      have h := getRun_finalize db rid orchRun.executionId STATUS_REJECTED none
        (some "Plan rejected by user") hav
      unfold getRun at h
      rw [horch'] at h
      exact h
    have hmain : rejectOrchestration db rid =
        (.ok { orchRun with status := STATUS_REJECTED, finalOutput := none },
          finalizeOrchestration db rid orchRun.executionId STATUS_REJECTED none
            (some "Plan rejected by user"),
          [.orchestratorPlanRejected rid orchRun.orchestratorAgentId]) := by
      unfold rejectOrchestration
      simp only [hav, Bool.not_true, Bool.false_eq_true, if_false]
      simp only [horch']
      simp only [hne, Bool.false_eq_true, if_false]
      simp only [hre]
    rw [hmain]
    refine ⟨rfl, ?_, ?_, ?_, rfl⟩
    · exact hre
    · exact getExec_finalize db rid orchRun.executionId STATUS_REJECTED none
        (some "Plan rejected by user") hav STATUS_FAILED rfl
    · intro w hw
      exact getWf_finalize db rid orchRun.executionId STATUS_REJECTED none
        (some "Plan rejected by user") hav STATUS_FAILED rfl orchRun horch w hw
  · intro hst
    have hne : (orchRun.status != STATUS_AWAITING_APPROVAL) = true := by
      simp [bne, hst]
    have hmain : rejectOrchestration db rid =
        (.error (.invalidInput ("Orchestration run is not awaiting approval (status: " ++
          orchRun.status ++ ")")), db, []) := by
      unfold rejectOrchestration
      simp only [hav, Bool.not_true, Bool.false_eq_true, if_false]
      simp only [horch']
      simp only [hne, if_true]
    rw [hmain]
    exact ⟨⟨_, rfl⟩, rfl, rfl⟩

/-- C8 witness: rejecting a run awaiting approval, and rejecting it again
once it is already `rejected`. -/
theorem c8_reject_orchestration_witness :
    (Fixtures.dbAwaiting.available = true ∧
      getRun Fixtures.dbAwaiting ⟨100⟩ = some Fixtures.runAwaiting ∧
      Fixtures.runAwaiting.status = STATUS_AWAITING_APPROVAL ∧
      (rejectOrchestration Fixtures.dbAwaiting ⟨100⟩).1 =
        .ok { Fixtures.runAwaiting with
          status := STATUS_REJECTED, finalOutput := none } ∧
      (rejectOrchestration Fixtures.dbAwaiting ⟨100⟩).2.2 =
        [.orchestratorPlanRejected ⟨100⟩ Fixtures.runAwaiting.orchestratorAgentId]) ∧
    (Fixtures.runA.status ≠ STATUS_AWAITING_APPROVAL ∧
      (∃ m, (rejectOrchestration Fixtures.dbRun ⟨100⟩).1 = .error (.invalidInput m)) ∧
      (rejectOrchestration Fixtures.dbRun ⟨100⟩).2.1 = Fixtures.dbRun ∧
      (rejectOrchestration Fixtures.dbRun ⟨100⟩).2.2 = []) := by
  have h1 := (c8_reject_orchestration Fixtures.dbAwaiting ⟨100⟩ Fixtures.runAwaiting
    rfl rfl).1 rfl
  have h2 := (c8_reject_orchestration Fixtures.dbRun ⟨100⟩ Fixtures.runA rfl rfl).2
    (by decide)
  exact ⟨⟨rfl, rfl, rfl, h1.1, h1.2.2.2.2⟩, ⟨by decide, h2.1, h2.2.1, h2.2.2⟩⟩

/-! ## C5 — events at start and finalization -/

theorem find?_append_new {α} (q : α → Bool) (l : List α) (x : α)
    (hold : ∀ y ∈ l, q y = false) (hx : q x = true) :
    (l ++ [x]).find? q = some x := by
  induction l with
  | nil => simp [List.find?, hx]
  | cons y ys ih =>
      have hy : q y = false := hold y (List.mem_cons_self y ys)
      simp only [List.cons_append, List.find?, hy]
      exact ih (fun z hz => hold z (List.mem_cons_of_mem y hz))

theorem uuidBeqFalse (u : Uuid) (m : Nat) (h : u.val ≠ m) :
    (u == (⟨m⟩ : Uuid)) = false := by
  rw [beq_eq_false_iff_ne]
  intro he
  exact h (congrArg Uuid.val he)

/-- C5 counterexample: in the automatic happy path with no tools, the full
event trace is `WorkflowRunStarted, AgentExecutionStarted,
OrchestratorCompleted` — the claimed `AgentExecutionCompleted` and
`WorkflowRunCompleted` events are never emitted (zero, not exactly one). -/
theorem c5_counterexample_no_terminal_delivery_events :
    (orchestrateAgent Fixtures.envEndTurn Fixtures.dbAgents
        ⟨⟨1⟩, "hi", MODE_AUTOMATIC⟩).2.2 =
      [.workflowRunStarted ⟨10⟩ ⟨103⟩,
       .agentExecutionStarted ⟨11⟩ ⟨1⟩,
       .orchestratorCompleted ⟨12⟩ ⟨1⟩ "hello"] ∧
    (orchestrateAgent Fixtures.envEndTurn Fixtures.dbAgents
        ⟨⟨1⟩, "hi", MODE_AUTOMATIC⟩).2.2.countP isTerminalDeliveryEvent = 0 :=
  ⟨rfl, rfl⟩

/-- C5 (amended): starting an automatic orchestration that completes on its
first model call emits exactly `WorkflowRunStarted, AgentExecutionStarted,
OrchestratorCompleted` in that order; the terminal state is recorded by
updating the orchestration-run, execution and workflow rows to `completed`
in the database, with *no* `AgentExecutionCompleted`/`WorkflowRunCompleted`
event emitted. -/
theorem c5_happy_path_events :
    ∀ (env : Env) (db : Db) (req : OrchestrateRequest) (agent : Agent)
      (providerRow : LlmProviderRow)
      (complete : LlmRequest → Except AppError LlmResponse) (resp : LlmResponse),
      req.mode = MODE_AUTOMATIC →
      inputTooLong req.input = false →
      db.available = true →
      db.freshOk →
      findRow (fun a => a.id == req.agentId && a.isActive) db.agents = some agent →
      findRow (fun p => p.id == agent.llmProviderId && p.isEnabled) db.llmProviders =
        some providerRow →
      env.registry providerRow.name = some complete →
      (∀ r, complete r = .ok resp) →
      resp.stopReason = some STOP_END_TURN →
      (orchestrateAgent env db req).2.2 =
        [.workflowRunStarted ⟨db.nextId⟩ agent.workflowId,
         .agentExecutionStarted ⟨db.nextId + 1⟩ agent.id,
         .orchestratorCompleted ⟨db.nextId + 2⟩ agent.id resp.content] ∧
      (orchestrateAgent env db req).2.2.countP isTerminalDeliveryEvent = 0 ∧
      (∃ r, getRun (orchestrateAgent env db req).2.1 ⟨db.nextId + 2⟩ = some r ∧
        r.status = STATUS_COMPLETED ∧ r.finalOutput = some resp.content) ∧
      (∃ e, getExec (orchestrateAgent env db req).2.1 ⟨db.nextId + 1⟩ = some e ∧
        e.status = STATUS_COMPLETED ∧ e.outputText = some resp.content) ∧
      (∃ w, getWf (orchestrateAgent env db req).2.1 ⟨db.nextId⟩ = some w ∧
        w.status = STATUS_COMPLETED) := by
  intro env db req agent providerRow complete resp hmodeA hsize hav hfresh hagent hprov
    hreg hcomp hstop
  obtain ⟨hfr, hfe, hfw⟩ := hfresh
  have hmode : validateMode req.mode = .ok () := by
    rw [hmodeA]
    rfl
  have hmode2 : (req.mode == MODE_APPROVAL) = false := by
    rw [hmodeA]
    rfl
  have hterm : (resp.stopReason.getD STOP_END_TURN == STOP_END_TURN ||
      resp.stopReason.getD STOP_END_TURN == STOP_STOP) = true := by
    rw [hstop]
    rfl
  have h20 : MAX_TOOL_LOOP_ITERATIONS = 19 + 1 := rfl
  have hg : orchestrateAgent env db req = orchestrateAgentBody env db req := by
    unfold orchestrateAgent
    rw [hmode]
    simp [hsize]
  have hfinal : orchestrateAgent env db req =
      (.ok
        { id := ⟨db.nextId + 2⟩,
          orchestratorAgentId := agent.id,
          workflowRunId := ⟨db.nextId⟩, executionId := ⟨db.nextId + 1⟩,
          mode := req.mode, status := STATUS_RUNNING, planJson := none,
          messagesJson := none, finalOutput := none },
        finalizeOrchestration
          { db with
            nextId := db.nextId + 3,
            workflowRuns := db.workflowRuns ++
              [{ id := ⟨db.nextId⟩,
                 workflowId := agent.workflowId,
                 status := STATUS_RUNNING, errorMessage := none }],
            agentExecutions := db.agentExecutions ++
              [{ id := ⟨db.nextId + 1⟩,
                 agentId := agent.id,
                 workflowRunId := some ⟨db.nextId⟩, status := STATUS_RUNNING,
                 inputText := some req.input, outputText := none, tokenUsage := none,
                 durationMs := none, errorMessage := none }],
            orchestrationRuns := db.orchestrationRuns ++
              [{ id := ⟨db.nextId + 2⟩,
                 orchestratorAgentId := agent.id,
                 workflowRunId := ⟨db.nextId⟩, executionId := ⟨db.nextId + 1⟩,
                 mode := req.mode, status := STATUS_RUNNING, planJson := none,
                 messagesJson := none, finalOutput := none }] }
          ⟨db.nextId + 2⟩ ⟨db.nextId + 1⟩ STATUS_COMPLETED (some resp.content) none,
        [.workflowRunStarted ⟨db.nextId⟩ agent.workflowId,
         .agentExecutionStarted ⟨db.nextId + 1⟩ agent.id,
         .orchestratorCompleted ⟨db.nextId + 2⟩ agent.id resp.content]) := by
    rw [hg]
    unfold orchestrateAgentBody
    simp only [hav, Bool.not_true, Bool.false_eq_true, if_false]
    simp only [hagent, hprov, Db.freshId]
    simp only [hmode2, Bool.false_eq_true, if_false]
    unfold runToolLoop
    simp only [hreg]
    rw [h20]
    simp only [runToolLoopAux, hcomp, hterm, if_true]
    norm_num [hav]
  rw [hfinal]
  -- the appended rows are found by their fresh ids
  have hfindRun : List.find? (fun r => r.id == (⟨db.nextId + 2⟩ : Uuid))
      (db.orchestrationRuns ++
        [{ id := ⟨db.nextId + 2⟩,
           orchestratorAgentId := agent.id,
           workflowRunId := ⟨db.nextId⟩, executionId := ⟨db.nextId + 1⟩,
           mode := req.mode, status := STATUS_RUNNING, planJson := none,
           messagesJson := none, finalOutput := none }]) =
      some
        { id := ⟨db.nextId + 2⟩,
          orchestratorAgentId := agent.id,
          workflowRunId := ⟨db.nextId⟩, executionId := ⟨db.nextId + 1⟩,
          mode := req.mode, status := STATUS_RUNNING, planJson := none,
          messagesJson := none, finalOutput := none } := by
    apply find?_append_new
    · intro y hy
      exact uuidBeqFalse y.id (db.nextId + 2) (by have := hfr y hy; omega)
    · simp
  have hfindExec : List.find? (fun e => e.id == (⟨db.nextId + 1⟩ : Uuid))
      (db.agentExecutions ++
        [{ id := ⟨db.nextId + 1⟩,
           agentId := agent.id,
           workflowRunId := some ⟨db.nextId⟩, status := STATUS_RUNNING,
           inputText := some req.input, outputText := none, tokenUsage := none,
           durationMs := none, errorMessage := none }]) =
      some
        { id := ⟨db.nextId + 1⟩,
          agentId := agent.id,
          workflowRunId := some ⟨db.nextId⟩, status := STATUS_RUNNING,
          inputText := some req.input, outputText := none, tokenUsage := none,
          durationMs := none, errorMessage := none } := by
    apply find?_append_new
    · intro y hy
      exact uuidBeqFalse y.id (db.nextId + 1) (by have := hfe y hy; omega)
    · simp
  have hfindWf : List.find? (fun w => w.id == (⟨db.nextId⟩ : Uuid))
      (db.workflowRuns ++
        [{ id := ⟨db.nextId⟩,
           workflowId := agent.workflowId,
           status := STATUS_RUNNING, errorMessage := none }]) =
      some
        { id := ⟨db.nextId⟩,
          workflowId := agent.workflowId,
          status := STATUS_RUNNING, errorMessage := none } := by
    apply find?_append_new
    · intro y hy
      exact uuidBeqFalse y.id db.nextId (by have := hfw y hy; omega)
    · simp
  refine ⟨rfl, rfl, ?_, ?_, ?_⟩
  · have h := getRun_finalize
      { db with
        nextId := db.nextId + 3,
        workflowRuns := db.workflowRuns ++
          [{ id := ⟨db.nextId⟩,
             workflowId := agent.workflowId,
             status := STATUS_RUNNING, errorMessage := none }],
        agentExecutions := db.agentExecutions ++
          [{ id := ⟨db.nextId + 1⟩,
             agentId := agent.id,
             workflowRunId := some ⟨db.nextId⟩, status := STATUS_RUNNING,
             inputText := some req.input, outputText := none, tokenUsage := none,
             durationMs := none, errorMessage := none }],
        orchestrationRuns := db.orchestrationRuns ++
          [{ id := ⟨db.nextId + 2⟩,
             orchestratorAgentId := agent.id,
             workflowRunId := ⟨db.nextId⟩, executionId := ⟨db.nextId + 1⟩,
             mode := req.mode, status := STATUS_RUNNING, planJson := none,
             messagesJson := none, finalOutput := none }] }
      ⟨db.nextId + 2⟩ ⟨db.nextId + 1⟩ STATUS_COMPLETED (some resp.content) none hav
    have hr2 : getRun
      { db with
        nextId := db.nextId + 3,
        workflowRuns := db.workflowRuns ++
          [{ id := ⟨db.nextId⟩,
             workflowId := agent.workflowId,
             status := STATUS_RUNNING, errorMessage := none }],
        agentExecutions := db.agentExecutions ++
          [{ id := ⟨db.nextId + 1⟩,
             agentId := agent.id,
             workflowRunId := some ⟨db.nextId⟩, status := STATUS_RUNNING,
             inputText := some req.input, outputText := none, tokenUsage := none,
             durationMs := none, errorMessage := none }],
        orchestrationRuns := db.orchestrationRuns ++
          [{ id := ⟨db.nextId + 2⟩,
             orchestratorAgentId := agent.id,
             workflowRunId := ⟨db.nextId⟩, executionId := ⟨db.nextId + 1⟩,
             mode := req.mode, status := STATUS_RUNNING, planJson := none,
             messagesJson := none, finalOutput := none }] }
      ⟨db.nextId + 2⟩ = some
      { id := ⟨db.nextId + 2⟩,
        orchestratorAgentId := agent.id,
        workflowRunId := ⟨db.nextId⟩, executionId := ⟨db.nextId + 1⟩,
        mode := req.mode, status := STATUS_RUNNING, planJson := none,
        messagesJson := none, finalOutput := none } := hfindRun
    rw [hr2] at h
    simp only [Option.map_some'] at h
    exact ⟨_, h, rfl, rfl⟩
  · have h := getExec_finalize
      { db with
        nextId := db.nextId + 3,
        workflowRuns := db.workflowRuns ++
          [{ id := ⟨db.nextId⟩,
             workflowId := agent.workflowId,
             status := STATUS_RUNNING, errorMessage := none }],
        agentExecutions := db.agentExecutions ++
          [{ id := ⟨db.nextId + 1⟩,
             agentId := agent.id,
             workflowRunId := some ⟨db.nextId⟩, status := STATUS_RUNNING,
             inputText := some req.input, outputText := none, tokenUsage := none,
             durationMs := none, errorMessage := none }],
        orchestrationRuns := db.orchestrationRuns ++
          [{ id := ⟨db.nextId + 2⟩,
             orchestratorAgentId := agent.id,
             workflowRunId := ⟨db.nextId⟩, executionId := ⟨db.nextId + 1⟩,
             mode := req.mode, status := STATUS_RUNNING, planJson := none,
             messagesJson := none, finalOutput := none }] }
      ⟨db.nextId + 2⟩ ⟨db.nextId + 1⟩ STATUS_COMPLETED (some resp.content) none hav
      STATUS_COMPLETED rfl
    have he2 : getExec
      { db with
        nextId := db.nextId + 3,
        workflowRuns := db.workflowRuns ++
          [{ id := ⟨db.nextId⟩,
             workflowId := agent.workflowId,
             status := STATUS_RUNNING, errorMessage := none }],
        agentExecutions := db.agentExecutions ++
          [{ id := ⟨db.nextId + 1⟩,
             agentId := agent.id,
             workflowRunId := some ⟨db.nextId⟩, status := STATUS_RUNNING,
             inputText := some req.input, outputText := none, tokenUsage := none,
             durationMs := none, errorMessage := none }],
        orchestrationRuns := db.orchestrationRuns ++
          [{ id := ⟨db.nextId + 2⟩,
             orchestratorAgentId := agent.id,
             workflowRunId := ⟨db.nextId⟩, executionId := ⟨db.nextId + 1⟩,
             mode := req.mode, status := STATUS_RUNNING, planJson := none,
             messagesJson := none, finalOutput := none }] }
      ⟨db.nextId + 1⟩ = some
      { id := ⟨db.nextId + 1⟩,
        agentId := agent.id,
        workflowRunId := some ⟨db.nextId⟩, status := STATUS_RUNNING,
        inputText := some req.input, outputText := none, tokenUsage := none,
        durationMs := none, errorMessage := none } := hfindExec
    rw [he2] at h
    simp only [Option.map_some'] at h
    exact ⟨_, h, rfl, rfl⟩
  · have hr2 : getRun
      { db with
        nextId := db.nextId + 3,
        workflowRuns := db.workflowRuns ++
          [{ id := ⟨db.nextId⟩,
             workflowId := agent.workflowId,
             status := STATUS_RUNNING, errorMessage := none }],
        agentExecutions := db.agentExecutions ++
          [{ id := ⟨db.nextId + 1⟩,
             agentId := agent.id,
             workflowRunId := some ⟨db.nextId⟩, status := STATUS_RUNNING,
             inputText := some req.input, outputText := none, tokenUsage := none,
             durationMs := none, errorMessage := none }],
        orchestrationRuns := db.orchestrationRuns ++
          [{ id := ⟨db.nextId + 2⟩,
             orchestratorAgentId := agent.id,
             workflowRunId := ⟨db.nextId⟩, executionId := ⟨db.nextId + 1⟩,
             mode := req.mode, status := STATUS_RUNNING, planJson := none,
             messagesJson := none, finalOutput := none }] }
      ⟨db.nextId + 2⟩ = some
      { id := ⟨db.nextId + 2⟩,
        orchestratorAgentId := agent.id,
        workflowRunId := ⟨db.nextId⟩, executionId := ⟨db.nextId + 1⟩,
        mode := req.mode, status := STATUS_RUNNING, planJson := none,
        messagesJson := none, finalOutput := none } := hfindRun
    have hw2 : getWf
      { db with
        nextId := db.nextId + 3,
        workflowRuns := db.workflowRuns ++
          [{ id := ⟨db.nextId⟩,
             workflowId := agent.workflowId,
             status := STATUS_RUNNING, errorMessage := none }],
        agentExecutions := db.agentExecutions ++
          [{ id := ⟨db.nextId + 1⟩,
             agentId := agent.id,
             workflowRunId := some ⟨db.nextId⟩, status := STATUS_RUNNING,
             inputText := some req.input, outputText := none, tokenUsage := none,
             durationMs := none, errorMessage := none }],
        orchestrationRuns := db.orchestrationRuns ++
          [{ id := ⟨db.nextId + 2⟩,
             orchestratorAgentId := agent.id,
             workflowRunId := ⟨db.nextId⟩, executionId := ⟨db.nextId + 1⟩,
             mode := req.mode, status := STATUS_RUNNING, planJson := none,
             messagesJson := none, finalOutput := none }] }
      (⟨db.nextId⟩ : Uuid) = some
      { id := ⟨db.nextId⟩,
        workflowId := agent.workflowId,
        status := STATUS_RUNNING, errorMessage := none } := hfindWf
    have h := getWf_finalize
      { db with
        nextId := db.nextId + 3,
        workflowRuns := db.workflowRuns ++
          [{ id := ⟨db.nextId⟩,
             workflowId := agent.workflowId,
             status := STATUS_RUNNING, errorMessage := none }],
        agentExecutions := db.agentExecutions ++
          [{ id := ⟨db.nextId + 1⟩,
             agentId := agent.id,
             workflowRunId := some ⟨db.nextId⟩, status := STATUS_RUNNING,
             inputText := some req.input, outputText := none, tokenUsage := none,
             durationMs := none, errorMessage := none }],
        orchestrationRuns := db.orchestrationRuns ++
          [{ id := ⟨db.nextId + 2⟩,
             orchestratorAgentId := agent.id,
             workflowRunId := ⟨db.nextId⟩, executionId := ⟨db.nextId + 1⟩,
             mode := req.mode, status := STATUS_RUNNING, planJson := none,
             messagesJson := none, finalOutput := none }] }
      ⟨db.nextId + 2⟩ ⟨db.nextId + 1⟩ STATUS_COMPLETED (some resp.content) none hav
      STATUS_COMPLETED rfl
      { id := ⟨db.nextId + 2⟩,
        orchestratorAgentId := agent.id,
        workflowRunId := ⟨db.nextId⟩, executionId := ⟨db.nextId + 1⟩,
        mode := req.mode, status := STATUS_RUNNING, planJson := none,
        messagesJson := none, finalOutput := none }
      hr2
      { id := ⟨db.nextId⟩,
        workflowId := agent.workflowId,
        status := STATUS_RUNNING, errorMessage := none }
      hw2
    exact ⟨_, h, rfl⟩

/-- C5 witness: the happy path over a one-agent database. -/
theorem c5_happy_path_events_witness :
    ((⟨⟨1⟩, "hi", MODE_AUTOMATIC⟩ : OrchestrateRequest).mode = MODE_AUTOMATIC ∧
      inputTooLong "hi" = false ∧
      Fixtures.dbAgents.available = true ∧
      Fixtures.dbAgents.freshOk) ∧
    ((orchestrateAgent Fixtures.envEndTurn Fixtures.dbAgents
        ⟨⟨1⟩, "hi", MODE_AUTOMATIC⟩).2.2 =
      [.workflowRunStarted ⟨Fixtures.dbAgents.nextId⟩ Fixtures.agentA.workflowId,
       .agentExecutionStarted ⟨Fixtures.dbAgents.nextId + 1⟩ Fixtures.agentA.id,
       .orchestratorCompleted ⟨Fixtures.dbAgents.nextId + 2⟩ Fixtures.agentA.id
         "hello"] ∧
      (∃ r, getRun (orchestrateAgent Fixtures.envEndTurn Fixtures.dbAgents
          ⟨⟨1⟩, "hi", MODE_AUTOMATIC⟩).2.1 ⟨Fixtures.dbAgents.nextId + 2⟩ = some r ∧
        r.status = STATUS_COMPLETED ∧ r.finalOutput = some "hello")) := by
  have h := c5_happy_path_events Fixtures.envEndTurn Fixtures.dbAgents
    ⟨⟨1⟩, "hi", MODE_AUTOMATIC⟩ Fixtures.agentA Fixtures.providerP
    (fun _ => .ok { content := "hello", contentBlocks := [.text "hello"],
                    stopReason := some "end_turn" })
    { content := "hello", contentBlocks := [.text "hello"],
      stopReason := some "end_turn" }
    rfl rfl rfl ⟨by simp [Fixtures.dbAgents], by simp [Fixtures.dbAgents],
      by simp [Fixtures.dbAgents]⟩ rfl rfl rfl (fun _ => rfl) rfl
  exact ⟨⟨rfl, rfl, rfl, ⟨by simp [Fixtures.dbAgents], by simp [Fixtures.dbAgents],
      by simp [Fixtures.dbAgents]⟩⟩,
    h.1, h.2.2.1⟩

end Emo
